import Mathlib

/-!
# Verification of the ThreatScan core against its specification

Shallow embedding of the algorithmic core of the `threatscan` backend:
the composite risk fusion (`heuristics.compute_composite_score`), the scan
tiering (`routers/scan.scan_url`), the URL structural analyzer
(`heuristics.analyze_url_structure`), the attack-pattern detector and
localized explainer (`utils/threat_explainer.py`), the PII redactor
(`utils/sanitizers.redact_pii`) and the sliding-window rate limiter
(`middleware/rate_limiter.py`).

Python floats are modelled as rationals (`Rat`); Python's `round` (which
rounds halves to even) is modelled by `pyRound`.  Python strings are
modelled as `List Char`.
-/

namespace ThreatScan

/-! ## Python `round` on rationals (round-half-to-even) -/

/-- Python's built-in `round` on a rational: nearest integer, halves to even. -/
def pyRound (x : ℚ) : ℤ :=
  let n : ℤ := ⌊x⌋
  let r : ℚ := x - n
  if r < 1/2 then n
  else if 1/2 < r then n + 1
  else if Even n then n else n + 1

theorem floor_le_pyRound (x : ℚ) : ⌊x⌋ ≤ pyRound x := by
  unfold pyRound
  dsimp only
  split_ifs <;> omega

theorem pyRound_le_floor_add_one (x : ℚ) : pyRound x ≤ ⌊x⌋ + 1 := by
  unfold pyRound
  dsimp only
  split_ifs <;> omega

theorem pyRound_intCast (n : ℤ) : pyRound (n : ℚ) = n := by
  unfold pyRound
  dsimp only
  rw [Int.floor_intCast]
  split_ifs with h1 h2
  · rfl
  · exfalso
    rw [sub_self] at h2
    norm_num at h2
  · rfl
  · exfalso
    rw [sub_self] at h1
    norm_num at h1

theorem pyRound_mono {x y : ℚ} (h : x ≤ y) : pyRound x ≤ pyRound y := by
  have hf : ⌊x⌋ ≤ ⌊y⌋ := Int.floor_mono h
  rcases lt_or_eq_of_le hf with hlt | heq
  · calc pyRound x ≤ ⌊x⌋ + 1 := pyRound_le_floor_add_one x
      _ ≤ ⌊y⌋ := by omega
      _ ≤ pyRound y := floor_le_pyRound y
  · have hr : x - (⌊x⌋ : ℚ) ≤ y - (⌊y⌋ : ℚ) := by
      rw [heq] at *
      linarith
    unfold pyRound
    dsimp only
    rw [heq] at *
    split_ifs with h1 h2 h3 h4 h5 h6 h7 <;> try omega
    all_goals linarith

theorem pyRound_nonneg {x : ℚ} (h : 0 ≤ x) : 0 ≤ pyRound x := by
  have h0 : ((0 : ℤ) : ℚ) ≤ x := by exact_mod_cast h
  have := pyRound_mono h0
  rwa [pyRound_intCast 0] at this

theorem pyRound_le_of_le {x : ℚ} {b : ℤ} (h : x ≤ (b : ℚ)) : pyRound x ≤ b := by
  have := pyRound_mono h
  rwa [pyRound_intCast b] at this

/-! ## Composite risk fusion (`app/utils/heuristics.py`, `compute_composite_score`)

```python
def compute_composite_score(model_score, heuristic_score, weights=None):
    default_weights = {"model": 0.6, "heuristic": 0.4}
    weights = weights or default_weights
    composite = (model_score * weights["model"] +
                 heuristic_score * weights["heuristic"])
    return round(composite * 100)
```

The function performs no validation of the supplied weights, at
construction time or anywhere else: any weight dictionary with the two
keys is accepted and folded straight into the score.
-/

/-- A weight dictionary `{"model": m, "heuristic": h}`. -/
structure Weights where
  model : ℚ
  heuristic : ℚ
deriving DecidableEq, Repr

/-- The default weights `{"model": 0.6, "heuristic": 0.4}`. -/
def default_weights : Weights := ⟨6/10, 4/10⟩

/-- `compute_composite_score` from `heuristics.py`.  `weights = none`
models the Python default `weights=None` (the `weights or default_weights`
idiom then selects the defaults). -/
def compute_composite_score (model_score heuristic_score : ℚ)
    (weights : Option Weights) : ℤ :=
  let w := weights.getD default_weights
  pyRound ((model_score * w.model + heuristic_score * w.heuristic) * 100)

/-! ## Scan tiering (`app/routers/scan.py`, `scan_url`, lines 127–133)

```python
is_safe = risk_score < 30
if risk_score >= 70:
    label = "High Risk - Likely Malicious"
elif risk_score >= 40:
    label = "Medium Risk - Suspicious"
else:
    label = "Low Risk - Appears Safe"
```
-/

/-- `is_safe` as computed by `scan_url`. -/
def scan_is_safe (risk_score : ℤ) : Bool := risk_score < 30

/-- The tier label as computed by `scan_url`. -/
def scan_label (risk_score : ℤ) : String :=
  if risk_score ≥ 70 then "High Risk - Likely Malicious"
  else if risk_score ≥ 40 then "Medium Risk - Suspicious"
  else "Low Risk - Appears Safe"

/-- The model probability used by `scan_url` when the external classifier
is unavailable or returns no `malicious` entry: `model_prob = 0.0`. -/
def no_signal_model_prob : ℚ := 0

theorem compute_composite_score_eval (p h : ℚ) :
    compute_composite_score p h none = pyRound ((p * (6/10) + h * (4/10)) * 100) := rfl

/-- **C4.** Under the default weights `{model: 0.6, heuristic: 0.4}` the fused
score equals `round((p*0.6 + h*0.4) * 100)`, is an integer in `[0,100]` for
`p, h ∈ [0,1]`, is monotonically non-decreasing in both arguments, and
`fuse(0,0) = 0`, `fuse(1,1) = 100`. -/
theorem claim_C4_fusion_default_weights (p h : ℚ)
    (hp0 : 0 ≤ p) (hp1 : p ≤ 1) (hh0 : 0 ≤ h) (hh1 : h ≤ 1) :
    compute_composite_score p h none = pyRound ((p * (6/10) + h * (4/10)) * 100)
    ∧ 0 ≤ compute_composite_score p h none
    ∧ compute_composite_score p h none ≤ 100
    ∧ (∀ p', p ≤ p' → compute_composite_score p h none ≤ compute_composite_score p' h none)
    ∧ (∀ h', h ≤ h' → compute_composite_score p h none ≤ compute_composite_score p h' none)
    ∧ compute_composite_score 0 0 none = 0
    ∧ compute_composite_score 1 1 none = 100 := by
  refine ⟨rfl, ?_, ?_, ?_, ?_, ?_, ?_⟩
  · rw [compute_composite_score_eval]
    apply pyRound_nonneg
    nlinarith
  · rw [compute_composite_score_eval]
    apply pyRound_le_of_le
    push_cast
    nlinarith
  · intro p' hp'
    rw [compute_composite_score_eval, compute_composite_score_eval]
    apply pyRound_mono
    nlinarith
  · intro h' hh'
    rw [compute_composite_score_eval, compute_composite_score_eval]
    apply pyRound_mono
    nlinarith
  · rw [compute_composite_score_eval]
    have h0 : ((0:ℚ) * (6/10) + 0 * (4/10)) * 100 = ((0 : ℤ) : ℚ) := by norm_num
    rw [h0, pyRound_intCast]
  · rw [compute_composite_score_eval]
    have h1 : ((1:ℚ) * (6/10) + 1 * (4/10)) * 100 = ((100 : ℤ) : ℚ) := by norm_num
    rw [h1, pyRound_intCast]

/-- Witness for C4 at `p = 1/2`, `h = 1/2`. -/
theorem claim_C4_fusion_default_weights_witness :
    0 ≤ (1/2 : ℚ) ∧ (1/2 : ℚ) ≤ 1
    ∧ (compute_composite_score (1/2) (1/2) none = pyRound (((1:ℚ)/2 * (6/10) + (1:ℚ)/2 * (4/10)) * 100)
       ∧ 0 ≤ compute_composite_score (1/2) (1/2) none
       ∧ compute_composite_score (1/2) (1/2) none ≤ 100
       ∧ (∀ p', (1/2 : ℚ) ≤ p' → compute_composite_score (1/2) (1/2) none ≤ compute_composite_score p' (1/2) none)
       ∧ (∀ h', (1/2 : ℚ) ≤ h' → compute_composite_score (1/2) (1/2) none ≤ compute_composite_score (1/2) h' none)
       ∧ compute_composite_score 0 0 none = 0
       ∧ compute_composite_score 1 1 none = 100) :=
  ⟨by norm_num, by norm_num,
    claim_C4_fusion_default_weights (1/2) (1/2) (by norm_num) (by norm_num) (by norm_num) (by norm_num)⟩

/-- **C3 (counterexample).** No weight validation happens anywhere: a weight
set summing to `1.8` (not `1.0`) is accepted silently — the call neither
fails at construction nor per call, and returns `180`, outside `[0,100]`. -/
theorem claim_C3_counterexample :
    (9/10 : ℚ) + (9/10 : ℚ) ≠ 1
    ∧ compute_composite_score 1 1 (some ⟨9/10, 9/10⟩) = 180 := by
  constructor
  · norm_num
  · show pyRound (((1:ℚ) * (9/10) + 1 * (9/10)) * 100) = 180
    have h1 : ((1:ℚ) * (9/10) + 1 * (9/10)) * 100 = ((180 : ℤ) : ℚ) := by norm_num
    rw [h1, pyRound_intCast]

/-- **C3 (amended).** The fusion performs no weight validation at all (a
non-normalized weight set flows straight through, see the counterexample);
for weights that do sum to `1.0` with non-negative components, every
invocation is total and pure and the score lies in `[0,100]`. -/
theorem claim_C3_fusion_no_validation (p h : ℚ) (w : Weights)
    (hw : w.model + w.heuristic = 1) (hm : 0 ≤ w.model) (hh : 0 ≤ w.heuristic)
    (hp0 : 0 ≤ p) (hp1 : p ≤ 1) (hh0 : 0 ≤ h) (hh1 : h ≤ 1) :
    0 ≤ compute_composite_score p h (some w)
    ∧ compute_composite_score p h (some w) ≤ 100 := by
  simp only [compute_composite_score, Option.getD_some]
  constructor
  · apply pyRound_nonneg
    nlinarith
  · apply pyRound_le_of_le
    push_cast
    nlinarith

/-- Witness for the amended C3 with the default weight values passed explicitly. -/
theorem claim_C3_fusion_no_validation_witness :
    (6/10 : ℚ) + (4/10 : ℚ) = 1
    ∧ (0 ≤ compute_composite_score (1/4) (3/4) (some ⟨6/10, 4/10⟩)
       ∧ compute_composite_score (1/4) (3/4) (some ⟨6/10, 4/10⟩) ≤ 100) :=
  ⟨by norm_num,
    claim_C3_fusion_no_validation (1/4) (3/4) ⟨6/10, 4/10⟩ (by norm_num) (by norm_num)
      (by norm_num) (by norm_num) (by norm_num) (by norm_num) (by norm_num)⟩

/-- **C10.** With no classifier signal (`model_prob = 0.0`), the fused score
equals `round(h * 40)`, is at most `40`, and the High/Malicious tier
(`score ≥ 70`, label `"High Risk - Likely Malicious"`) is unreachable. -/
theorem claim_C10_heuristic_only_cap (h : ℚ) (hh0 : 0 ≤ h) (hh1 : h ≤ 1) :
    compute_composite_score no_signal_model_prob h none = pyRound (h * 40)
    ∧ compute_composite_score no_signal_model_prob h none ≤ 40
    ∧ ¬ (70 ≤ compute_composite_score no_signal_model_prob h none)
    ∧ scan_label (compute_composite_score no_signal_model_prob h none)
        ≠ "High Risk - Likely Malicious" := by
  have heq : compute_composite_score no_signal_model_prob h none = pyRound (h * 40) := by
    rw [show no_signal_model_prob = (0:ℚ) from rfl, compute_composite_score_eval]
    congr 1
    ring
  have hle : compute_composite_score no_signal_model_prob h none ≤ 40 := by
    rw [heq]
    apply pyRound_le_of_le
    push_cast
    linarith
  refine ⟨heq, hle, by omega, ?_⟩
  unfold scan_label
  rw [if_neg (by omega)]
  split_ifs with hc
  · intro hcon
    exact absurd hcon (by decide)
  · intro hcon
    exact absurd hcon (by decide)

/-- Witness for C10 at `h = 1` (the maximal heuristic score). -/
theorem claim_C10_heuristic_only_cap_witness :
    0 ≤ (1 : ℚ) ∧ (1 : ℚ) ≤ 1
    ∧ (compute_composite_score no_signal_model_prob 1 none = pyRound ((1:ℚ) * 40)
       ∧ compute_composite_score no_signal_model_prob 1 none ≤ 40
       ∧ ¬ (70 ≤ compute_composite_score no_signal_model_prob 1 none)
       ∧ scan_label (compute_composite_score no_signal_model_prob 1 none)
           ≠ "High Risk - Likely Malicious") :=
  ⟨by norm_num, by norm_num,
    claim_C10_heuristic_only_cap 1 (by norm_num) (by norm_num)⟩


/-! ## Python string primitives

Helpers modelling the Python string operations used by the core:
substring containment (`in`), `str.partition`/`rpartition`, `str.lower`,
`str.capitalize`, `str.format(brand=...)`. Strings are ASCII except for the
Hindi/Marathi translation values, which are only ever passed through.
-/

/-- `leadsWith needle hay`: `needle` is a leading segment of `hay`. -/
def leadsWith : List Char → List Char → Bool
  | [], _ => true
  | _ :: _, [] => false
  | a :: as, b :: bs => a == b && leadsWith as bs

/-- Python `needle in hay` for strings (substring containment). -/
def containsSeq (needle : List Char) : List Char → Bool
  | [] => needle.isEmpty
  | hay@(_ :: t) => leadsWith needle hay || containsSeq needle t

/-- Python `needle in hay` on `String`. -/
def strContains (hay needle : String) : Bool := containsSeq needle.data hay.data

/-- Everything before the first occurrence of `c` (the whole list if absent):
first component of Python `partition`. -/
def upToFirstChar (c : Char) (l : List Char) : List Char := l.takeWhile (· ≠ c)

/-- Everything after the first occurrence of `c` (empty if absent):
last component of Python `partition`. -/
def afterFirstChar (c : Char) (l : List Char) : List Char :=
  match l.dropWhile (· ≠ c) with
  | [] => []
  | _ :: t => t

/-- Everything after the last occurrence of `c` (the whole list if absent):
last component of Python `rpartition`. -/
def afterLastChar (c : Char) (l : List Char) : List Char :=
  (l.reverse.takeWhile (· ≠ c)).reverse

/-- Python `str.capitalize()`: first character upper-cased, rest lower-cased. -/
def pyCapitalize (s : String) : String :=
  match s.data with
  | [] => ""
  | c :: cs => String.mk (c.toUpper :: cs.map Char.toLower)

/-- Python `str.lower()` (structural, so that concrete evaluation reduces). -/
def pyLower (s : String) : String := String.mk (s.data.map Char.toLower)

/-- Python `s.split(c)` for a single-character separator. -/
def splitOnChar (c : Char) : List Char → List (List Char)
  | [] => [[]]
  | x :: xs =>
    if x = c then [] :: splitOnChar c xs
    else
      match splitOnChar c xs with
      | [] => [[x]]
      | h :: t => (x :: h) :: t

/-- Python `c.join(parts)` for the `.` separator. -/
def joinDotsL : List (List Char) → List Char
  | [] => []
  | [x] => x
  | x :: xs => x ++ '.' :: joinDotsL xs

/-- `".".join(parts)` on strings. -/
def joinDots (parts : List String) : String := String.mk (joinDotsL (parts.map String.data))

/-- The loop of Python `str.replace(pat, repl)` (non-empty `pat`): the
counter skips the remainder of a replaced occurrence. -/
def replaceGo (pat repl : List Char) : List Char → Nat → List Char
  | [], _ => []
  | x :: xs, 0 =>
    if !pat.isEmpty && leadsWith pat (x :: xs) then repl ++ replaceGo pat repl xs (pat.length - 1)
    else x :: replaceGo pat repl xs 0
  | _ :: xs, k + 1 => replaceGo pat repl xs k

/-- Python `str.replace(pat, repl)` for non-empty `pat`. -/
def pyReplace (s pat repl : String) : String :=
  String.mk (replaceGo pat.data repl.data s.data 0)

/-- ASCII hex digit (Python regex class `[0-9a-fA-F]`). -/
def isHexDigitChar (c : Char) : Bool :=
  c.isDigit || ('a' ≤ c && c ≤ 'f') || ('A' ≤ c && c ≤ 'F')

/-- Python `re.search(r'%[0-9a-fA-F]{2}', s)` as a Boolean. -/
def hasHexEscape : List Char → Bool
  | '%' :: a :: b :: rest => (isHexDigitChar a && isHexDigitChar b) || hasHexEscape (a :: b :: rest)
  | _ :: rest => hasHexEscape rest
  | [] => false

/-- Decimal digit list to a natural number (Python `int(s, 10)` on digits). -/
def digitsToNat (l : List Char) : Nat :=
  l.foldl (fun a c => a * 10 + (c.toNat - 48)) 0

/-! ## Python `urllib.parse.urlparse` (the fragment the core relies on)

Modelled from the CPython implementation of `urlsplit`: scheme splitting at
the first `:` when the prefix is a valid scheme, netloc after `//` up to the
first `/?#`, the `Invalid IPv6 URL` `ValueError` when the netloc has
unbalanced square brackets, `hostname` lower-cased and stripped of
user-info/port, and the `port` property raising `ValueError` on a
non-numeric or out-of-range port. Restricted to ASCII inputs; `int()`
idiosyncrasies (underscores, surrounding whitespace, leading `+`) are not
modelled.
-/

/-- The components of a parsed URL used by the core. -/
structure PyParsed where
  scheme : String
  netloc : String
  path : String
deriving DecidableEq, Repr

/-- Characters allowed in a URL scheme. -/
def schemeChar (c : Char) : Bool := c.isAlpha || c.isDigit || c == '+' || c == '-' || c == '.'

/-- `urlparse`, returning `.error` where CPython raises `ValueError`
("Invalid IPv6 URL"). -/
def pyUrlparse (url : String) : Except String PyParsed :=
  let l := url.data
  let pre := l.takeWhile (· ≠ ':')
  let rest :=
    if l.contains ':' && !pre.isEmpty && (pre.headD ' ').isAlpha && pre.all schemeChar
    then afterFirstChar ':' l
    else l
  let scheme :=
    if l.contains ':' && !pre.isEmpty && (pre.headD ' ').isAlpha && pre.all schemeChar
    then pre.map Char.toLower
    else []
  let netloc :=
    if rest.take 2 = ['/', '/']
    then (rest.drop 2).takeWhile (fun c => c ≠ '/' && c ≠ '?' && c ≠ '#')
    else []
  let rest2 :=
    if rest.take 2 = ['/', '/']
    then (rest.drop 2).dropWhile (fun c => c ≠ '/' && c ≠ '?' && c ≠ '#')
    else rest
  let path := rest2.takeWhile (fun c => c ≠ '?' && c ≠ '#')
  if (netloc.contains '[' && !netloc.contains ']')
      || (netloc.contains ']' && !netloc.contains '[') then
    .error "Invalid IPv6 URL"
  else
    .ok ⟨String.mk scheme, String.mk netloc, String.mk path⟩

/-- CPython `_hostinfo`: `(hostname-part, port-part)` of a netloc. -/
def pyHostinfo (netloc : List Char) : List Char × List Char :=
  let hostinfo := afterLastChar '@' netloc
  if hostinfo.contains '[' then
    let bracketed := afterFirstChar '[' hostinfo
    (bracketed.takeWhile (· ≠ ']'), afterFirstChar ':' (afterFirstChar ']' bracketed))
  else
    (upToFirstChar ':' hostinfo, afterFirstChar ':' hostinfo)

/-- `parsed.hostname or ""`: lower-cased host. -/
def pyHostname (netloc : String) : String :=
  String.mk ((pyHostinfo netloc.data).1.map Char.toLower)

/-- `parsed.port`: `none` when absent, `.error` where CPython raises. -/
def pyPortValue (netloc : String) : Except String (Option Nat) :=
  let p := (pyHostinfo netloc.data).2
  if p.isEmpty then .ok none
  else if p.all Char.isDigit then
    let n := digitsToNat p
    if n ≤ 65535 then .ok (some n) else .error "Port out of range 0-65535"
  else .error "invalid literal for int"

namespace threat_explainer

def en_table : List (String × String) := [
  ("double_tld", "Double TLD Deception"),
  ("brand_impersonation", "Brand Impersonation"),
  ("excessive_hyphens", "Excessive Hyphens"),
  ("excessive_dots", "Excessive Dots"),
  ("ip_address", "IP Address Instead of Domain"),
  ("suspicious_tld", "Suspicious TLD"),
  ("url_too_long", "URL Obfuscation"),
  ("encoded_chars", "Encoded Characters"),
  ("subdomain_brand", "Brand in Subdomain"),
  ("punycode", "Punycode/Homograph Attack"),
  ("port_number", "Non-Standard Port"),
  ("data_uri", "Data URI Scheme"),
  ("reason_double_tld", "The link contains more than one extension (like .com.com), which is commonly used in phishing"),
  ("reason_brand_subdomain", "The brand name appears in the subdomain, not the real domain - this is a common trick"),
  ("reason_excessive_hyphens", "Too many hyphens in the domain make it look suspicious"),
  ("reason_excessive_dots", "Excessive dots suggest an attempt to hide the real domain"),
  ("reason_ip_address", "Using an IP address instead of a domain name is unusual and often malicious"),
  ("reason_suspicious_tld", "The domain uses a top-level domain commonly associated with spam or abuse"),
  ("reason_url_long", "Unusually long URLs may be trying to hide malicious parts"),
  ("reason_encoded_chars", "Encoded characters can be used to disguise malicious URLs"),
  ("reason_subdomain_brand", "A legitimate brand name appears before the actual domain - this is deceptive"),
  ("reason_punycode", "The URL uses special characters that look like letters to trick you"),
  ("reason_port_number", "Non-standard port numbers are rarely used by legitimate websites"),
  ("reason_no_https", "The link does not use secure HTTPS - your data may not be protected"),
  ("explanation_malicious", "This link is designed to look like {brand} but is actually controlled by a different domain."),
  ("explanation_suspicious", "This link shows some signs of being potentially misleading or unsafe."),
  ("explanation_safe", "This link appears to be legitimate with no obvious signs of deception."),
  ("tip_double_tld", "Always check the domain extension. A real site like google.com will never be google.com.com."),
  ("tip_brand_subdomain", "If a link uses a brand name but does not end with the official domain, avoid clicking it."),
  ("tip_ip_address", "Legitimate websites always use domain names, not IP addresses. Be very careful."),
  ("tip_general", "When in doubt, go directly to the official website by typing the address yourself."),
  ("tip_verify", "Verify the URL by hovering over links before clicking, and look for the lock icon in your browser."),
  ("tip_no_https", "Only enter sensitive information on websites that show a padlock icon in the browser.")
]

def hi_table : List (String × String) := [
  ("double_tld", "डबल TLD धोखा"),
  ("brand_impersonation", "ब्रांड प्रतिरूपण"),
  ("excessive_hyphens", "अत्यधिक हाइफ़न"),
  ("excessive_dots", "अत्यधिक डॉट्स"),
  ("ip_address", "डोमेन के बजाय IP पता"),
  ("suspicious_tld", "संदिग्ध TLD"),
  ("url_too_long", "URL भ्रम"),
  ("encoded_chars", "एन्कोडेड अक्षर"),
  ("subdomain_brand", "सबडोमेन में ब्रांड"),
  ("punycode", "पुनीकोड/होमोग्राफ़ हमला"),
  ("port_number", "गैर-मानक पोर्ट"),
  ("data_uri", "डेटा URI स्कीम"),
  ("reason_double_tld", "इस लिंक में एक से अधिक एक्सटेंशन (.com.com जैसे) है, जो फ़िशिंग में आम है"),
  ("reason_brand_subdomain", "ब्रांड का नाम सबडोमेन में है, असली डोमेन में नहीं - यह एक आम चाल है"),
  ("reason_excessive_hyphens", "डोमेन में बहुत सारे हाइफ़न इसे संदिग्ध बनाते हैं"),
  ("reason_excessive_dots", "अत्यधिक डॉट्स असली डोमेन छिपाने का प्रयास दर्शाते हैं"),
  ("reason_ip_address", "डोमेन नाम के बजाय IP पता का उपयोग असामान्य और अक्सर दुर्भावनापूर्ण होता है"),
  ("reason_suspicious_tld", "यह डोमेन स्पैम या दुरुपयोग से जुड़े TLD का उपयोग करता है"),
  ("reason_url_long", "असामान्य रूप से लंबे URL दुर्भावनापूर्ण भागों को छिपाने की कोशिश कर सकते हैं"),
  ("reason_encoded_chars", "एन्कोडेड अक्षर दुर्भावनापूर्ण URL को छिपाने के लिए उपयोग किए जा सकते हैं"),
  ("reason_subdomain_brand", "एक वैध ब्रांड नाम वास्तविक डोमेन से पहले दिखाई देता है - यह धोखाधड़ी है"),
  ("reason_punycode", "URL विशेष अक्षरों का उपयोग करता है जो अक्षरों जैसे दिखते हैं"),
  ("reason_port_number", "गैर-मानक पोर्ट नंबर वैध वेबसाइटों द्वारा शायद ही उपयोग किए जाते हैं"),
  ("reason_no_https", "यह लिंक सुरक्षित HTTPS का उपयोग नहीं करता - आपका डेटा सुरक्षित नहीं हो सकता"),
  ("explanation_malicious", "यह लिंक {brand} जैसा दिखने के लिए डिज़ाइन किया गया है लेकिन वास्तव में एक अलग डोमेन द्वारा नियंत्रित है।"),
  ("explanation_suspicious", "यह लिंक संभावित रूप से भ्रामक या असुरक्षित होने के कुछ संकेत दिखाता है।"),
  ("explanation_safe", "यह लिंक वैध प्रतीत होता है और धोखे के कोई स्पष्ट संकेत नहीं हैं।"),
  ("tip_double_tld", "हमेशा डोमेन एक्सटेंशन जांचें। google.com जैसी असली साइट कभी google.com.com नहीं होगी।"),
  ("tip_brand_subdomain", "अगर कोई लिंक ब्रांड नाम का उपयोग करता है लेकिन आधिकारिक डोमेन पर समाप्त नहीं होता, तो क्लिक न करें।"),
  ("tip_ip_address", "वैध वेबसाइटें हमेशा डोमेन नाम का उपयोग करती हैं, IP पते का नहीं। बहुत सावधान रहें।"),
  ("tip_general", "संदेह होने पर, पता खुद टाइप करके सीधे आधिकारिक वेबसाइट पर जाएं।"),
  ("tip_verify", "क्लिक करने से पहले लिंक पर होवर करके URL सत्यापित करें, और अपने ब्राउज़र में लॉक आइकन देखें।"),
  ("tip_no_https", "संवेदनशील जानकारी केवल उन वेबसाइटों पर दर्ज करें जो ब्राउज़र में पैडलॉक आइकन दिखाती हैं।")
]

def mr_table : List (String × String) := [
  ("double_tld", "डबल TLD फसवणूक"),
  ("brand_impersonation", "ब्रँड प्रतिरूपण"),
  ("excessive_hyphens", "जास्त हायफन"),
  ("excessive_dots", "जास्त डॉट्स"),
  ("ip_address", "डोमेन ऐवजी IP पत्ता"),
  ("suspicious_tld", "संशयास्पद TLD"),
  ("url_too_long", "URL गोंधळ"),
  ("encoded_chars", "एन्कोडेड अक्षरे"),
  ("subdomain_brand", "सबडोमेनमध्ये ब्रँड"),
  ("punycode", "प्युनीकोड/होमोग्राफ हल्ला"),
  ("port_number", "असामान्य पोर्ट"),
  ("data_uri", "डेटा URI स्कीम"),
  ("reason_double_tld", "या लिंकमध्ये एकापेक्षा जास्त एक्स्टेंशन (.com.com सारखे) आहे, जे फिशिंगमध्ये सामान्य आहे"),
  ("reason_brand_subdomain", "ब्रँडचे नाव सबडोमेनमध्ये आहे, खऱ्या डोमेनमध्ये नाही - ही एक सामान्य युक्ती आहे"),
  ("reason_excessive_hyphens", "डोमेनमध्ये खूप जास्त हायफन ते संशयास्पद बनवतात"),
  ("reason_excessive_dots", "जास्त डॉट्स खरे डोमेन लपवण्याचा प्रयत्न दर्शवतात"),
  ("reason_ip_address", "डोमेन नावाऐवजी IP पत्ता वापरणे असामान्य आणि बहुतेक वेळा दुर्भावनापूर्ण असते"),
  ("reason_suspicious_tld", "हा डोमेन स्पॅम किंवा गैरवापराशी संबंधित TLD वापरतो"),
  ("reason_url_long", "असामान्यपणे लांब URLs दुर्भावनापूर्ण भाग लपवण्याचा प्रयत्न करू शकतात"),
  ("reason_encoded_chars", "एन्कोडेड अक्षरे दुर्भावनापूर्ण URLs वेष बदलण्यासाठी वापरली जाऊ शकतात"),
  ("reason_subdomain_brand", "एक वैध ब्रँड नाव वास्तविक डोमेन आधी दिसते - हे फसवणूक आहे"),
  ("reason_punycode", "URL विशेष अक्षरे वापरतो जी अक्षरांसारखी दिसतात"),
  ("reason_port_number", "असामान्य पोर्ट नंबर वैध वेबसाइट्स क्वचितच वापरतात"),
  ("reason_no_https", "हा लिंक सुरक्षित HTTPS वापरत नाही - तुमचा डेटा सुरक्षित नसू शकतो"),
  ("explanation_malicious", "हा लिंक {brand} सारखा दिसण्यासाठी डिझाइन केला आहे पण प्रत्यक्षात वेगळ्या डोमेनद्वारे नियंत्रित आहे।"),
  ("explanation_suspicious", "हा लिंक संभाव्य भ्रामक किंवा असुरक्षित असल्याची काही चिन्हे दर्शवतो।"),
  ("explanation_safe", "हा लिंक वैध दिसतो आणि फसवणुकीची कोणतीही स्पष्ट चिन्हे नाहीत।"),
  ("tip_double_tld", "नेहमी डोमेन एक्स्टेंशन तपासा. google.com सारखी खरी साइट कधीही google.com.com नसेल।"),
  ("tip_brand_subdomain", "जर एखादा लिंक ब्रँड नाव वापरतो पण अधिकृत डोमेनवर संपत नाही, तर क्लिक करू नका।"),
  ("tip_ip_address", "वैध वेबसाइट्स नेहमी डोमेन नाव वापरतात, IP पत्ते नाही. खूप सावध रहा।"),
  ("tip_general", "शंका असल्यास, पत्ता स्वतः टाइप करून थेट अधिकृत वेबसाइटवर जा।"),
  ("tip_verify", "क्लिक करण्यापूर्वी लिंकवर होवर करून URL सत्यापित करा, आणि तुमच्या ब्राउझरमध्ये लॉक आयकॉन शोधा।"),
  ("tip_no_https", "संवेदनशील माहिती फक्त त्या वेबसाइट्सवर प्रविष्ट करा ज्या ब्राउझरमध्ये पॅडलॉक आयकॉन दाखवतात।")
]

def KNOWN_BRANDS : List String := [
  "google",
  "facebook",
  "amazon",
  "apple",
  "microsoft",
  "paypal",
  "netflix",
  "instagram",
  "twitter",
  "linkedin",
  "whatsapp",
  "youtube",
  "gmail",
  "yahoo",
  "outlook",
  "dropbox",
  "adobe",
  "spotify",
  "uber",
  "airbnb",
  "ebay",
  "walmart",
  "target",
  "costco",
  "chase",
  "wellsfargo",
  "bankofamerica",
  "citibank",
  "amex",
  "visa",
  "mastercard",
  "paytm",
  "phonepe",
  "gpay",
  "sbi",
  "hdfc",
  "icici",
  "axis",
  "flipkart",
  "myntra",
  "swiggy",
  "zomato"
]

def SUSPICIOUS_TLDS : List String := [
  ".xyz",
  ".top",
  ".work",
  ".click",
  ".link",
  ".tk",
  ".ml",
  ".ga",
  ".cf",
  ".gq",
  ".pw",
  ".cc",
  ".ws",
  ".info",
  ".biz",
  ".online",
  ".site",
  ".club"
]

/-- The full translation table (`TRANSLATIONS` in `threat_explainer.py`). -/
def TRANSLATIONS : List (String × List (String × String)) :=
  [("en", en_table), ("hi", hi_table), ("mr", mr_table)]

/-- `get_text(lang, key, default="")`:
locale dictionary → `en` dictionary → default. -/
def get_text (lang key : String) : String :=
  let translations := (TRANSLATIONS.lookup lang).getD en_table
  (translations.lookup key).getD ((en_table.lookup key).getD "")

/-- `UrlBreakdown`: the dictionary returned by `parse_url_breakdown`. -/
structure UrlBreakdown where
  full_host : String
  subdomain : String
  domain : String
  tld : String
  is_ip : Bool
  registered_domain : String
  path : String
  port : String
deriving DecidableEq, Repr

/-- The `except`-branch dictionary of `parse_url_breakdown`. -/
def fallbackBreakdown (url : String) : UrlBreakdown :=
  ⟨url, "", url, "", false, url, "/", ""⟩

/-- The regex `^(?:\d{1,3}\.){3}\d{1,3}$` of `parse_url_breakdown`. -/
def isIpHost (h : String) : Bool :=
  let ps := splitOnChar '.' h.data
  ps.length == 4 && ps.all (fun p => 1 ≤ p.length && p.length ≤ 3 && p.all Char.isDigit)

/-- `"co.uk", "co.in", ...` in `parse_url_breakdown`. -/
def multi_tlds : List String := ["co.uk", "co.in", "com.au", "org.uk", "co.nz", "com.br"]

/-- `parse_url_breakdown(url)` from `threat_explainer.py`.  The `except`
branch is taken exactly where the modelled `urlparse`/`port` raise. -/
def parse_url_breakdown (url : String) : UrlBreakdown :=
  match pyUrlparse url with
  | .error _ => fallbackBreakdown url
  | .ok parsed =>
    match pyPortValue parsed.netloc with
    | .error _ => fallbackBreakdown url
    | .ok port =>
      let hostname := pyHostname parsed.netloc
      let pathStr := if parsed.path = "" then "/" else parsed.path
      let portStr :=
        match port with
        | some n => if n = 0 then "" else toString n
        | none => ""
      if isIpHost hostname then
        ⟨hostname, "", hostname, "", true, hostname, pathStr, portStr⟩
      else
        let parts := (splitOnChar '.' (pyLower hostname).data).map String.mk
        let n := parts.length
        if n ≥ 2 then
          if n ≥ 3 then
            let potential_multi_tld := joinDots (parts.drop (n - 2))
            if multi_tlds.contains potential_multi_tld then
              let tld := potential_multi_tld
              let domain := parts.getD (n - 3) ""
              let subdomain := if n > 3 then joinDots (parts.take (n - 3)) else ""
              ⟨hostname, subdomain, domain, tld, false, domain ++ "." ++ tld, pathStr, portStr⟩
            else
              let tld := parts.getD (n - 1) ""
              let domain := parts.getD (n - 2) ""
              let subdomain := if n > 2 then joinDots (parts.take (n - 2)) else ""
              ⟨hostname, subdomain, domain, tld, false, domain ++ "." ++ tld, pathStr, portStr⟩
          else
            let tld := parts.getD (n - 1) ""
            let domain := parts.getD (n - 2) ""
            ⟨hostname, "", domain, tld, false, domain ++ "." ++ tld, pathStr, portStr⟩
        else
          ⟨hostname, "", hostname, "", false, hostname, pathStr, portStr⟩

/-- A detected attack pattern: internal key plus optionally a brand. -/
structure AttackPattern where
  key : String
  brand : Option String
deriving DecidableEq, Repr

/-- `tld_extensions` of rule 1 in `detect_attack_patterns`. -/
def tld_extensions : List String := [".com", ".net", ".org", ".edu", ".gov", ".co"]

/-- Rule 2 of `detect_attack_patterns`: the brand loop, which breaks at the
first brand matching either the subdomain check or the hostname check. -/
def brandScan (subdomain domain hostname registered : String) :
    List String → List AttackPattern
  | [] => []
  | b :: bs =>
    if strContains subdomain b && !strContains domain b then
      [⟨"subdomain_brand", some b⟩]
    else if strContains hostname b && !strContains registered b then
      [⟨"brand_impersonation", some b⟩]
    else
      brandScan subdomain domain hostname registered bs

/-- `detect_attack_patterns(url, breakdown)` from `threat_explainer.py`. -/
def detect_attack_patterns (url : String) (breakdown : UrlBreakdown) :
    List AttackPattern :=
  let hostname := pyLower breakdown.full_host
  let subdomain := pyLower breakdown.subdomain
  let domain := pyLower breakdown.domain
  let tld := pyLower breakdown.tld
  let labels := (splitOnChar '.' hostname.data).map String.mk
  let tld_count := (tld_extensions.filter (fun ext => labels.contains (String.mk (ext.data.drop 1)))).length
  (if tld_count ≥ 2 then [(⟨"double_tld", none⟩ : AttackPattern)] else [])
  ++ brandScan subdomain domain hostname breakdown.registered_domain KNOWN_BRANDS
  ++ (if hostname.data.count '-' ≥ 3 then [(⟨"excessive_hyphens", none⟩ : AttackPattern)] else [])
  ++ (if hostname.data.count '.' ≥ 4 then [(⟨"excessive_dots", none⟩ : AttackPattern)] else [])
  ++ (if breakdown.is_ip then [(⟨"ip_address", none⟩ : AttackPattern)] else [])
  ++ (if SUSPICIOUS_TLDS.contains ("." ++ tld) then [(⟨"suspicious_tld", none⟩ : AttackPattern)] else [])
  ++ (if url.data.length > 100 then [(⟨"url_too_long", none⟩ : AttackPattern)] else [])
  ++ (if url.data.contains '%' && hasHexEscape url.data then [(⟨"encoded_chars", none⟩ : AttackPattern)] else [])
  ++ (if strContains hostname "xn--" then [(⟨"punycode", none⟩ : AttackPattern)] else [])
  ++ (if breakdown.port ≠ "" && !(["", "80", "443"].contains breakdown.port) then [(⟨"port_number", none⟩ : AttackPattern)] else [])
  ++ (if !(leadsWith "https://".data (pyLower url).data) then [(⟨"no_https", none⟩ : AttackPattern)] else [])

/-- `reason_keys` of `generate_reasons`. -/
def reason_keys : List (String × String) :=
  [("double_tld", "reason_double_tld"),
   ("subdomain_brand", "reason_subdomain_brand"),
   ("brand_impersonation", "reason_brand_subdomain"),
   ("excessive_hyphens", "reason_excessive_hyphens"),
   ("excessive_dots", "reason_excessive_dots"),
   ("ip_address", "reason_ip_address"),
   ("suspicious_tld", "reason_suspicious_tld"),
   ("url_too_long", "reason_url_long"),
   ("encoded_chars", "reason_encoded_chars"),
   ("punycode", "reason_punycode"),
   ("port_number", "reason_port_number"),
   ("no_https", "reason_no_https")]

/-- `generate_reasons(attack_patterns, lang)`. -/
def generate_reasons (attack_patterns : List AttackPattern) (lang : String) :
    List String :=
  attack_patterns.filterMap fun p =>
    (reason_keys.lookup p.key).map fun rk => get_text lang rk

/-- `generate_explanation(attack_patterns, risk_score, lang)`. -/
def generate_explanation (attack_patterns : List AttackPattern)
    (risk_score : ℤ) (lang : String) : String :=
  let brand := (attack_patterns.filterMap AttackPattern.brand).head?
  if risk_score ≥ 70 then
    let template := get_text lang "explanation_malicious"
    match brand with
    | some b => pyReplace template "{brand}" (pyCapitalize b)
    | none => pyReplace template "{brand}" "a legitimate website"
  else if risk_score ≥ 40 then
    get_text lang "explanation_suspicious"
  else
    get_text lang "explanation_safe"

/-- `tip_mapping` of `generate_safety_tip`. -/
def tip_mapping : List (String × String) :=
  [("double_tld", "tip_double_tld"),
   ("subdomain_brand", "tip_brand_subdomain"),
   ("brand_impersonation", "tip_brand_subdomain"),
   ("ip_address", "tip_ip_address"),
   ("no_https", "tip_no_https")]

/-- The scanning loop of `generate_safety_tip`: first tag whose key is in
`tip_mapping` wins. -/
def safety_tip_scan (lang : String) : List AttackPattern → Option String
  | [] => none
  | p :: ps =>
    match tip_mapping.lookup p.key with
    | some k => some (get_text lang k)
    | none => safety_tip_scan lang ps

/-- `generate_safety_tip(attack_patterns, lang)`. -/
def generate_safety_tip (attack_patterns : List AttackPattern) (lang : String) :
    String :=
  if attack_patterns.isEmpty then get_text lang "tip_verify"
  else
    match safety_tip_scan lang attack_patterns with
    | some t => t
    | none => get_text lang "tip_general"

/-- The accumulating loop of `get_attack_pattern_names` (dedup, drop empty). -/
def pattern_names_go (lang : String) : List AttackPattern → List String → List String
  | [], acc => acc
  | p :: ps, acc =>
    let name := get_text lang p.key
    if name ≠ "" && !acc.contains name then pattern_names_go lang ps (acc ++ [name])
    else pattern_names_go lang ps acc

/-- `get_attack_pattern_names(attack_patterns, lang)`. -/
def get_attack_pattern_names (attack_patterns : List AttackPattern)
    (lang : String) : List String :=
  pattern_names_go lang attack_patterns []

/-- The result of `get_full_threat_analysis` (breakdown plus localized texts). -/
structure ThreatAnalysis where
  url_breakdown : UrlBreakdown
  attack_patterns : List String
  reasons : List String
  explanation : String
  safety_tip : String
deriving DecidableEq, Repr

/-- `analyze_url_threats(url, lang)`: breakdown, detected pattern keys,
localized names and reasons. -/
def analyze_url_threats (url : String) (lang : String) :
    UrlBreakdown × List AttackPattern × List String × List String :=
  let breakdown := parse_url_breakdown url
  let patterns := detect_attack_patterns url breakdown
  (breakdown, patterns, get_attack_pattern_names patterns lang,
   generate_reasons patterns lang)

/-- `get_full_threat_analysis(url, risk_score, lang)`. -/
def get_full_threat_analysis (url : String) (risk_score : ℤ) (lang : String) :
    ThreatAnalysis :=
  let pr := analyze_url_threats url lang
  ⟨pr.1, pr.2.2.1, pr.2.2.2,
   generate_explanation pr.2.1 risk_score lang,
   generate_safety_tip pr.2.1 lang⟩

end threat_explainer


open threat_explainer

/-! ## Claims about the explainer (C1, C2, C8, C9) -/

/-- **C2 (counterexample).** On host `google.paymentverify.xyz` the brand
loop hits the subdomain check first and short-circuits, so no
`brand_impersonation` tag is ever produced, contradicting the claim. -/
theorem claim_C2_counterexample :
    ¬ ((⟨"brand_impersonation", some "google"⟩ : AttackPattern)
        ∈ detect_attack_patterns "https://google.paymentverify.xyz"
            (parse_url_breakdown "https://google.paymentverify.xyz")) := by decide

/-- **C2 (amended).** On host `google.paymentverify.xyz`, `detect_patterns`
returns exactly a `subdomain_brand` tag carrying brand `"google"` followed by
`suspicious_tld` (with an `http` scheme a trailing `no_https` is appended). -/
theorem claim_C2_detect_patterns_google_host :
    detect_attack_patterns "https://google.paymentverify.xyz"
        (parse_url_breakdown "https://google.paymentverify.xyz")
      = [⟨"subdomain_brand", some "google"⟩, ⟨"suspicious_tld", none⟩]
    ∧ detect_attack_patterns "http://google.paymentverify.xyz"
        (parse_url_breakdown "http://google.paymentverify.xyz")
      = [⟨"subdomain_brand", some "google"⟩, ⟨"suspicious_tld", none⟩,
         ⟨"no_https", none⟩] := by
  constructor
  · decide
  · decide

/-- **C1 (counterexample).** At fused score `35` (in `[30,70)`) the label is
the Low/Safe one, not the Medium/Suspicious one, the explanation is the safe
template, not the suspicious one, while `is_safe` is already `false`. -/
theorem claim_C1_counterexample :
    scan_is_safe 35 = false
    ∧ scan_label 35 = "Low Risk - Appears Safe"
    ∧ scan_label 35 ≠ "Medium Risk - Suspicious"
    ∧ generate_explanation [] 35 "en" = get_text "en" "explanation_safe"
    ∧ generate_explanation [] 35 "en" ≠ get_text "en" "explanation_suspicious" := by
  refine ⟨by decide, by decide, by decide, by decide, by decide⟩

/-- **C1 (amended).** The actual tier boundaries: `is_safe` flips at `30`,
but both the Medium/Suspicious label and the suspicious explanation template
start at `40`, not `30`; scores in `[30,40)` get the Low/Safe label and the
safe template with `is_safe = false`; `≥ 70` gives the High/Malicious label
and the malicious template with the first detected brand substituted. -/
theorem claim_C1_tier_boundaries (s : ℤ) (tags : List AttackPattern) (lang : String) :
    (s < 30 → scan_is_safe s = true ∧ scan_label s = "Low Risk - Appears Safe"
        ∧ generate_explanation tags s lang = get_text lang "explanation_safe")
    ∧ (30 ≤ s → scan_is_safe s = false)
    ∧ (30 ≤ s → s < 40 → scan_label s = "Low Risk - Appears Safe"
        ∧ generate_explanation tags s lang = get_text lang "explanation_safe")
    ∧ (40 ≤ s → s < 70 → scan_label s = "Medium Risk - Suspicious"
        ∧ generate_explanation tags s lang = get_text lang "explanation_suspicious")
    ∧ (70 ≤ s → scan_label s = "High Risk - Likely Malicious"
        ∧ (∀ b, (tags.filterMap AttackPattern.brand).head? = some b →
            generate_explanation tags s lang
              = pyReplace (get_text lang "explanation_malicious") "{brand}" (pyCapitalize b))
        ∧ ((tags.filterMap AttackPattern.brand).head? = none →
            generate_explanation tags s lang
              = pyReplace (get_text lang "explanation_malicious") "{brand}" "a legitimate website")) := by
  refine ⟨?_, ?_, ?_, ?_, ?_⟩
  · intro h
    refine ⟨by simp [scan_is_safe]; omega, ?_, ?_⟩
    · unfold scan_label
      rw [if_neg (by omega), if_neg (by omega)]
    · unfold generate_explanation
      rw [if_neg (by omega), if_neg (by omega)]
  · intro h
    simp [scan_is_safe]
    omega
  · intro h1 h2
    constructor
    · unfold scan_label
      rw [if_neg (by omega), if_neg (by omega)]
    · unfold generate_explanation
      rw [if_neg (by omega), if_neg (by omega)]
  · intro h1 h2
    constructor
    · unfold scan_label
      rw [if_neg (by omega), if_pos (by omega)]
    · unfold generate_explanation
      rw [if_neg (by omega), if_pos (by omega)]
  · intro h
    refine ⟨?_, ?_, ?_⟩
    · unfold scan_label
      rw [if_pos (by omega)]
    · intro b hb
      unfold generate_explanation
      rw [if_pos (by omega)]
      simp only [hb]
    · intro hb
      unfold generate_explanation
      rw [if_pos (by omega)]
      simp only [hb]

/-- Witness for the amended C1, exercising the corrected `[30,40)` band at
`s = 35` and the high tier at `s = 80` with a brand-carrying tag. -/
theorem claim_C1_tier_boundaries_witness :
    (scan_is_safe 35 = false
      ∧ scan_label 35 = "Low Risk - Appears Safe"
      ∧ generate_explanation [] 35 "en" = get_text "en" "explanation_safe")
    ∧ (scan_label 80 = "High Risk - Likely Malicious"
      ∧ generate_explanation [⟨"subdomain_brand", some "google"⟩] 80 "en"
          = pyReplace (get_text "en" "explanation_malicious") "{brand}" (pyCapitalize "google")) := by
  have h35 := claim_C1_tier_boundaries 35 [] "en"
  have h80 := claim_C1_tier_boundaries 80 [⟨"subdomain_brand", some "google"⟩] "en"
  exact ⟨⟨h35.2.1 (by omega), (h35.2.2.1 (by omega) (by omega)).1,
          (h35.2.2.1 (by omega) (by omega)).2⟩,
         ⟨(h80.2.2.2.2 (by omega)).1,
          (h80.2.2.2.2 (by omega)).2.1 "google" (by decide)⟩⟩

/-- Scanning tags whose keys are all unmapped reaches the rest of the list. -/
theorem safety_tip_scan_append_none (lang : String) (l1 rest : List AttackPattern)
    (h : ∀ q ∈ l1, tip_mapping.lookup q.key = none) :
    safety_tip_scan lang (l1 ++ rest) = safety_tip_scan lang rest := by
  induction l1 with
  | nil => rfl
  | cons q qs ih =>
    have hq : tip_mapping.lookup q.key = none := h q (by simp)
    simp only [List.cons_append, safety_tip_scan, hq]
    exact ih fun x hx => h x (by simp [hx])

/-- Scanning a list with no mapped key yields nothing. -/
theorem safety_tip_scan_all_none (lang : String) (l : List AttackPattern)
    (h : ∀ q ∈ l, tip_mapping.lookup q.key = none) :
    safety_tip_scan lang l = none := by
  induction l with
  | nil => rfl
  | cons q qs ih =>
    have hq : tip_mapping.lookup q.key = none := h q (by simp)
    simp only [safety_tip_scan, hq]
    exact ih fun x hx => h x (by simp [hx])

/-- **C8 (counterexample).** A non-empty tag list with no mapped tag (e.g.
`[suspicious_tld]`) yields the `tip_general` text ("go directly to the
official website"), not the generic verify-before-clicking tip `tip_verify`
— the latter is returned only for an empty tag list. -/
theorem claim_C8_counterexample :
    generate_safety_tip [⟨"suspicious_tld", none⟩] "en" = get_text "en" "tip_general"
    ∧ generate_safety_tip [⟨"suspicious_tld", none⟩] "en" ≠ get_text "en" "tip_verify"
    ∧ generate_safety_tip [] "en" = get_text "en" "tip_verify" := by
  refine ⟨by decide, by decide, by decide⟩

/-- **C8 (amended).** The tip is the one mapped to the first tag (in
detection order) present in `tip_mapping`; an empty tag list yields the
`tip_verify` text, while a non-empty list with no mapped tag yields the
distinct `tip_general` text. -/
theorem claim_C8_safety_tip_first_match (lang : String) (tags : List AttackPattern) :
    (tags = [] → generate_safety_tip tags lang = get_text lang "tip_verify")
    ∧ (∀ l1 p l2 k, tags = l1 ++ p :: l2 →
        (∀ q ∈ l1, tip_mapping.lookup q.key = none) →
        tip_mapping.lookup p.key = some k →
        generate_safety_tip tags lang = get_text lang k)
    ∧ (tags ≠ [] → (∀ q ∈ tags, tip_mapping.lookup q.key = none) →
        generate_safety_tip tags lang = get_text lang "tip_general") := by
  refine ⟨?_, ?_, ?_⟩
  · intro h
    subst h
    rfl
  · intro l1 p l2 k hdec h1 hp
    subst hdec
    unfold generate_safety_tip
    rw [if_neg (by simp)]
    rw [safety_tip_scan_append_none lang l1 _ h1]
    simp only [safety_tip_scan, hp]
  · intro hne hall
    unfold generate_safety_tip
    rw [if_neg (by simpa using hne)]
    rw [safety_tip_scan_all_none lang tags hall]

/-- Witness for the amended C8: the first mapped tag (`ip_address`, after an
unmapped `excessive_dots`) selects `tip_ip_address`. -/
theorem claim_C8_safety_tip_first_match_witness :
    generate_safety_tip [⟨"excessive_dots", none⟩, ⟨"ip_address", none⟩] "en"
      = get_text "en" "tip_ip_address" :=
  (claim_C8_safety_tip_first_match "en" _).2.1
    [⟨"excessive_dots", none⟩] ⟨"ip_address", none⟩ [] "tip_ip_address"
    rfl (by decide) (by decide)


/-! ## C9: locale fallback -/

/-- `"fr"` is not a key of `TRANSLATIONS`, so `get_text` resolves it through
the `en` table — character-for-character the same computation as for `"en"`. -/
theorem get_text_fr_en (key : String) : get_text "fr" key = get_text "en" key := rfl

theorem generate_reasons_fr_en (tags : List AttackPattern) :
    generate_reasons tags "fr" = generate_reasons tags "en" := by
  induction tags with
  | nil => rfl
  | cons p ps ih =>
    simp only [generate_reasons, List.filterMap_cons] at *
    cases h : reason_keys.lookup p.key <;> simp [h, get_text_fr_en, ih]

theorem safety_tip_scan_fr_en (tags : List AttackPattern) :
    safety_tip_scan "fr" tags = safety_tip_scan "en" tags := by
  induction tags with
  | nil => rfl
  | cons p ps ih =>
    simp only [safety_tip_scan]
    cases h : tip_mapping.lookup p.key <;> simp [h, get_text_fr_en, ih]

theorem generate_safety_tip_fr_en (tags : List AttackPattern) :
    generate_safety_tip tags "fr" = generate_safety_tip tags "en" := by
  unfold generate_safety_tip
  rw [safety_tip_scan_fr_en, get_text_fr_en, get_text_fr_en]

theorem generate_explanation_fr_en (tags : List AttackPattern) (s : ℤ) :
    generate_explanation tags s "fr" = generate_explanation tags s "en" := by
  unfold generate_explanation
  split_ifs
  · cases (tags.filterMap AttackPattern.brand).head? <;>
      simp only [get_text_fr_en]
  · exact get_text_fr_en _
  · exact get_text_fr_en _

theorem pattern_names_go_fr_en (tags : List AttackPattern) :
    ∀ acc, pattern_names_go "fr" tags acc = pattern_names_go "en" tags acc := by
  induction tags with
  | nil => intro acc; rfl
  | cons p ps ih =>
    intro acc
    simp only [pattern_names_go, get_text_fr_en]
    split_ifs <;> exact ih _

theorem get_attack_pattern_names_fr_en (tags : List AttackPattern) :
    get_attack_pattern_names tags "fr" = get_attack_pattern_names tags "en" := by
  unfold get_attack_pattern_names
  exact pattern_names_go_fr_en tags []

/-- **C9.** Requesting the unsupported locale `"fr"` produces content
identical to `"en"` throughout the explainer, and a key missing from a
supported locale's dictionary resolves through the `en` dictionary (and to
the default when `en` also lacks it) — lookup is total, never an error. -/
theorem claim_C9_locale_fallback (url : String) (risk_score : ℤ) :
    get_full_threat_analysis url risk_score "fr" = get_full_threat_analysis url risk_score "en"
    ∧ (∀ lang key tbl, TRANSLATIONS.lookup lang = some tbl → tbl.lookup key = none →
        get_text lang key = (en_table.lookup key).getD "")
    ∧ (∀ lang key, TRANSLATIONS.lookup lang = none → get_text lang key = get_text "en" key) := by
  refine ⟨?_, ?_, ?_⟩
  · unfold get_full_threat_analysis analyze_url_threats
    simp only [get_attack_pattern_names_fr_en, generate_reasons_fr_en,
      generate_explanation_fr_en, generate_safety_tip_fr_en]
  · intro lang key tbl hl hk
    unfold get_text
    rw [hl]
    simp [hk]
  · intro lang key hl
    unfold get_text
    rw [hl]
    rfl

/-- Witness for C9 on a concrete URL and score. -/
theorem claim_C9_locale_fallback_witness :
    get_full_threat_analysis "http://google.paymentverify.xyz" 55 "fr"
      = get_full_threat_analysis "http://google.paymentverify.xyz" 55 "en" :=
  (claim_C9_locale_fallback "http://google.paymentverify.xyz" 55).1


namespace heuristics

/-! ## `app/utils/heuristics.py`: `analyze_url_structure` (C7)

The module-level helpers `has_https`, `contains_ip` (regex
`\d{1,3}\.\d{1,3}\.\d{1,3}\.\d{1,3}` searched anywhere), and
`has_suspicious_tld` (netloc suffix against the module's own TLD list,
exceptions swallowed to `False`), then the seven additive checks.  The
only statement inside the `try` that can raise is `urlparse` itself
(the "Invalid IPv6 URL" `ValueError`), on which the function emits the
single parse-error finding with weight `0.30`.
-/

/-- `SUSPICIOUS_TLDS` of `heuristics.py` (distinct from the explainer's). -/
def SUSPICIOUS_TLDS : List String :=
  [".tk", ".ml", ".ga", ".cf", ".gq", ".xyz", ".top", ".work", ".click", ".link"]

/-- Python `str.endswith`. -/
def trailsWith (needle hay : String) : Bool :=
  leadsWith needle.data.reverse hay.data.reverse

/-- `has_https(url)`. -/
def has_https (url : String) : Bool := leadsWith "https://".data (pyLower url).data

/-- Rests of `l` after consuming one, two or three leading digits
(the backtracking choices of `\d{1,3}`). -/
def afterDigits : List Char → List (List Char)
  | [] => []
  | a :: rest =>
    if a.isDigit then
      [rest] ++
        (match rest with
         | [] => []
         | b :: rest2 =>
           if b.isDigit then
             [rest2] ++
               (match rest2 with
                | [] => []
                | c :: rest3 => if c.isDigit then [rest3] else [])
           else [])
    else []

/-- A match of `\d{1,3}\.\d{1,3}\.\d{1,3}\.\d{1,3}` starting here. -/
def ipQuadAt (l : List Char) : Bool :=
  (afterDigits l).any fun r1 =>
    match r1 with
    | '.' :: r1' =>
      (afterDigits r1').any fun r2 =>
        match r2 with
        | '.' :: r2' =>
          (afterDigits r2').any fun r3 =>
            match r3 with
            | '.' :: r3' => !(afterDigits r3').isEmpty
            | _ => false
        | _ => false
    | _ => false

/-- `re.search` of the IP pattern: a match at any position. -/
def ipSearch : List Char → Bool
  | [] => false
  | l@(_ :: t) => ipQuadAt l || ipSearch t

/-- `contains_ip(url)`. -/
def contains_ip (url : String) : Bool := ipSearch url.data

/-- `has_suspicious_tld(url)`: netloc lower-cased, suffix test against the
list; any exception yields `False`. -/
def has_suspicious_tld (url : String) : Bool :=
  match pyUrlparse url with
  | .error _ => false
  | .ok parsed => SUSPICIOUS_TLDS.any fun t => trailsWith t (pyLower parsed.netloc)

/-- The path keywords of the sixth check. -/
def auth_path_keywords : List String := ["login", "verify", "secure", "account", "update"]

/-- The seven checks of `analyze_url_structure`, in source order:
(condition, flag text, weight). -/
def url_checks (url : String) (parsed : PyParsed) : List (Bool × String × ℚ) :=
  [(!has_https url, "Missing HTTPS - connection not secure", 15/100),
   (contains_ip url, "Uses IP address instead of domain name", 25/100),
   (has_suspicious_tld url, "Uses suspicious top-level domain", 2/10),
   ((splitOnChar '.' parsed.netloc.data).length > 4,
     "Excessive subdomains - possible domain spoofing", 15/100),
   (url.data.length > 100, "Unusually long URL", 1/10),
   (auth_path_keywords.any (fun k => strContains (pyLower parsed.path) k),
     "Contains authentication-related keywords in path", 1/10),
   (url.data.contains '%' && url.data.count '%' > 3,
     "Excessive URL encoding - possible obfuscation", 1/10)]

/-- The result dictionary of the analyzers: `{"score": ..., "flags": [...]}`. -/
structure UrlAnalysis where
  score : ℚ
  flags : List String
deriving DecidableEq, Repr

/-- `analyze_url_structure(url)`: each matched check appends its flag and
adds its weight, the total is capped at `1.0`; on a parse failure the single
`URL parsing error: ...` finding with weight `0.30`. -/
def analyze_url_structure (url : String) : UrlAnalysis :=
  match pyUrlparse url with
  | .error e => { score := min (3/10) 1, flags := ["URL parsing error: " ++ e] }
  | .ok parsed =>
    let hits := (url_checks url parsed).filter (·.1)
    { score := min (hits.map fun c => c.2.2).sum 1,
      flags := hits.map fun c => c.2.1 }

end heuristics

open heuristics

/-- **C7.** `analyze_url_structure` is a total pure function: its score is
always in `[0,1]`; on a parse failure it returns exactly one
`URL parsing error` finding and the score `0.30`; and it is deterministic —
equal inputs give equal outputs (purity is definitional in this embedding). -/
theorem claim_C7_analyze_url_total (url : String) :
    (0 ≤ (analyze_url_structure url).score ∧ (analyze_url_structure url).score ≤ 1)
    ∧ (∀ e, pyUrlparse url = .error e →
        analyze_url_structure url
          = { score := 3/10, flags := ["URL parsing error: " ++ e] })
    ∧ (∀ url', url = url' → analyze_url_structure url = analyze_url_structure url') := by
  refine ⟨?_, ?_, ?_⟩
  · unfold analyze_url_structure
    match hp : pyUrlparse url with
    | .error e =>
      constructor
      · norm_num
      · norm_num
    | .ok parsed =>
      constructor
      · simp only
        apply le_min
        · apply List.sum_nonneg
          intro x hx
          simp only [List.mem_map] at hx
          obtain ⟨c, hc, hcx⟩ := hx
          have := List.mem_of_mem_filter hc
          subst hcx
          simp only [url_checks, List.mem_cons, List.not_mem_nil] at this
          rcases this with h|h|h|h|h|h|h|h <;> first | (subst h; norm_num) | cases h
        · norm_num
      · simp only
        exact min_le_right _ _
  · intro e he
    unfold analyze_url_structure
    rw [he]
    norm_num
  · intro url' h
    rw [h]

/-- Witness for C7 at the concrete failing URL `http://[` (unbalanced
bracket: CPython raises `ValueError("Invalid IPv6 URL")`). -/
theorem claim_C7_analyze_url_total_witness :
    (0 ≤ (analyze_url_structure "http://[").score
      ∧ (analyze_url_structure "http://[").score ≤ 1)
    ∧ pyUrlparse "http://[" = .error "Invalid IPv6 URL"
    ∧ analyze_url_structure "http://["
        = { score := 3/10, flags := ["URL parsing error: Invalid IPv6 URL"] } := by
  have h := claim_C7_analyze_url_total "http://["
  have hp : pyUrlparse "http://[" = .error "Invalid IPv6 URL" := by rfl
  exact ⟨h.1, hp, h.2.1 "Invalid IPv6 URL" hp⟩


namespace rate_limiter

/-! ## `app/middleware/rate_limiter.py` (C5)

`RateLimiter` holds `_requests : {client_id: [(timestamp, endpoint_type)]}`
and `_last_cleanup`; `check_rate_limit` first runs the lazy 5-minute
cleanup sweep, then checks burst, per-minute and per-hour limits in that
order against the window-filtered timestamps of the requesting client,
rejecting without recording a new timestamp, and otherwise appends
`(now, endpoint_type)`.  Timestamps are rationals (seconds); the client id
stands for the hashed address, and the Python `defaultdict` read that
materialises an empty list for unknown clients is modelled by
`updateClient`.
-/

/-- `RateLimitConfig`. -/
structure RateLimitConfig where
  requests_per_minute : ℕ
  requests_per_hour : ℕ
  burst_limit : ℕ
  burst_window : ℕ
deriving DecidableEq, Repr

/-- `RATE_LIMITS` (per endpoint class). -/
def RATE_LIMITS : List (String × RateLimitConfig) :=
  [("scan", ⟨20, 200, 5, 10⟩),
   ("chat", ⟨30, 500, 10, 10⟩),
   ("community", ⟨5, 20, 3, 60⟩),
   ("auth", ⟨10, 50, 5, 60⟩),
   ("default", ⟨60, 1000, 20, 10⟩)]

/-- `RATE_LIMITS["default"]`, the fallback of `RATE_LIMITS.get(...)`. -/
def default_rate_config : RateLimitConfig := ⟨60, 1000, 20, 10⟩

/-- The limiter's mutable state: the per-client timestamp lists and the
time of the last cleanup sweep. -/
structure RateLimiterState where
  requests : List (String × List (ℚ × String))
  last_cleanup : ℚ
deriving DecidableEq, Repr

/-- `_get_endpoint_type(path)`. -/
def _get_endpoint_type (path : String) : String :=
  if strContains path "/scan/" then "scan"
  else if strContains path "/chat" then "chat"
  else if strContains path "/community" then "community"
  else if strContains path "/auth" then "auth"
  else "default"

/-- Write-back of a client's list, modelling the `defaultdict`: an unknown
client gains a (possibly empty) entry, a known client's entry is replaced
in place. -/
def updateClient (requests : List (String × List (ℚ × String))) (cid : String)
    (l : List (ℚ × String)) : List (String × List (ℚ × String)) :=
  if (requests.lookup cid).isSome then
    requests.map fun e => if e.1 = cid then (cid, l) else e
  else requests ++ [(cid, l)]

/-- `_cleanup_old_entries`: at most every 300 s, drop entries older than one
hour and remove clients left empty. -/
def _cleanup_old_entries (st : RateLimiterState) (now : ℚ) : RateLimiterState :=
  if now - st.last_cleanup < 300 then st
  else
    { requests := ((st.requests.map fun e =>
          (e.1, e.2.filter fun te => decide (te.1 > now - 3600))).filter
            fun e => !e.2.isEmpty),
      last_cleanup := now }

/-- `check_rate_limit`, with the request's hashed client id, path and
arrival time passed explicitly: returns the optional rejection reason and
the successor state. -/
def check_rate_limit (st : RateLimiterState) (now : ℚ) (cid path : String) :
    Option String × RateLimiterState :=
  let st1 := _cleanup_old_entries st now
  let endpoint_type := _get_endpoint_type path
  let config := (RATE_LIMITS.lookup endpoint_type).getD default_rate_config
  let client_requests := (st1.requests.lookup cid).getD []
  let base := updateClient st1.requests cid client_requests
  let relevant := client_requests.filter fun te =>
    te.2 == endpoint_type && decide (te.1 > now - 3600)
  let burst_count := (relevant.filter fun te =>
    decide (te.1 > now - (config.burst_window : ℚ))).length
  if burst_count ≥ config.burst_limit then
    (some ("Too many requests. Please wait " ++ toString config.burst_window ++ " seconds."),
     ⟨base, st1.last_cleanup⟩)
  else
    let minute_count := (relevant.filter fun te => decide (te.1 > now - 60)).length
    if minute_count ≥ config.requests_per_minute then
      (some "Rate limit exceeded. Please wait a minute before trying again.",
       ⟨base, st1.last_cleanup⟩)
    else if relevant.length ≥ config.requests_per_hour then
      (some "Hourly rate limit exceeded. Please try again later.",
       ⟨base, st1.last_cleanup⟩)
    else
      (none, ⟨updateClient st1.requests cid (client_requests ++ [(now, endpoint_type)]),
              st1.last_cleanup⟩)

end rate_limiter


namespace rate_limiter

/-- The requesting client's list after the lazy cleanup. -/
def cleanedListOf (st : RateLimiterState) (now : ℚ) (cid : String) : List (ℚ × String) :=
  (((_cleanup_old_entries st now).requests).lookup cid).getD []

/-- The endpoint-class configuration selected for a path. -/
def configOf (path : String) : RateLimitConfig :=
  (RATE_LIMITS.lookup (_get_endpoint_type path)).getD default_rate_config

/-- The hour-window, endpoint-filtered timestamps of the client. -/
def relevantOf (st : RateLimiterState) (now : ℚ) (cid path : String) : List (ℚ × String) :=
  (cleanedListOf st now cid).filter fun te =>
    te.2 == _get_endpoint_type path && decide (te.1 > now - 3600)

/-- The burst-window count. -/
def burstCountOf (st : RateLimiterState) (now : ℚ) (cid path : String) : ℕ :=
  ((relevantOf st now cid path).filter fun te =>
    decide (te.1 > now - ((configOf path).burst_window : ℚ))).length

/-- The one-minute count. -/
def minuteCountOf (st : RateLimiterState) (now : ℚ) (cid path : String) : ℕ :=
  ((relevantOf st now cid path).filter fun te => decide (te.1 > now - 60)).length

end rate_limiter

open rate_limiter

/-- **C5 (counterexample).** A rejected request can still change the client's
stored timestamp list: with an entry one hour old and the 5-minute sweep due,
a burst-rejected request at `t = 4000` evicts the stale `(0, scan)` entry, so
the stored list is not unchanged by the rejection (no new timestamp is
recorded, but the list shrinks). -/
theorem claim_C5_counterexample :
    check_rate_limit
        ⟨[("c", [(0, "scan"), (3995, "scan"), (3996, "scan"), (3997, "scan"),
                 (3998, "scan"), (3999, "scan")])], 0⟩ 4000 "c" "/scan/url"
      = (some "Too many requests. Please wait 10 seconds.",
         ⟨[("c", [(3995, "scan"), (3996, "scan"), (3997, "scan"),
                  (3998, "scan"), (3999, "scan")])], 4000⟩)
    ∧ ([("c", [(3995, "scan"), (3996, "scan"), (3997, "scan"),
               (3998, "scan"), (3999, "scan")])]
        : List (String × List (ℚ × String)))
      ≠ [("c", [(0, "scan"), (3995, "scan"), (3996, "scan"), (3997, "scan"),
                (3998, "scan"), (3999, "scan")])] := by
  constructor
  · norm_num [check_rate_limit, _cleanup_old_entries, _get_endpoint_type, RATE_LIMITS,
      default_rate_config, updateClient, strContains, containsSeq, leadsWith, List.lookup,
      List.filter]
    rfl
  · intro h
    simp only [List.cons.injEq, Prod.mk.injEq] at h
    exact absurd h.1.2 (by norm_num)


/-- Step 1 of the §8 scenario: first scan request at `t = 0` admitted. -/
theorem c5_trace_1 :
    check_rate_limit ⟨[], 0⟩ 0 "c" "/scan/url"
      = (none, ⟨[("c", [(0, "scan")])], 0⟩) := by
  norm_num [check_rate_limit, _cleanup_old_entries, _get_endpoint_type, RATE_LIMITS,
    default_rate_config, updateClient, strContains, containsSeq, leadsWith, List.lookup,
    List.filter]

/-- Steps 2–5: requests at `t = 2, 4, 6, 8` all admitted. -/
theorem c5_trace_2_5 :
    check_rate_limit ⟨[("c", [(0, "scan")])], 0⟩ 2 "c" "/scan/url"
      = (none, ⟨[("c", [(0, "scan"), (2, "scan")])], 0⟩)
    ∧ check_rate_limit ⟨[("c", [(0, "scan"), (2, "scan")])], 0⟩ 4 "c" "/scan/url"
      = (none, ⟨[("c", [(0, "scan"), (2, "scan"), (4, "scan")])], 0⟩)
    ∧ check_rate_limit ⟨[("c", [(0, "scan"), (2, "scan"), (4, "scan")])], 0⟩ 6 "c" "/scan/url"
      = (none, ⟨[("c", [(0, "scan"), (2, "scan"), (4, "scan"), (6, "scan")])], 0⟩)
    ∧ check_rate_limit ⟨[("c", [(0, "scan"), (2, "scan"), (4, "scan"), (6, "scan")])], 0⟩ 8 "c" "/scan/url"
      = (none, ⟨[("c", [(0, "scan"), (2, "scan"), (4, "scan"), (6, "scan"), (8, "scan")])], 0⟩) := by
  refine ⟨?_, ?_, ?_, ?_⟩ <;>
    norm_num [check_rate_limit, _cleanup_old_entries, _get_endpoint_type, RATE_LIMITS,
      default_rate_config, updateClient, strContains, containsSeq, leadsWith, List.lookup,
      List.filter]

/-- Step 6: the sixth request within the 10-second burst window is rejected
with the burst reason, and the state is unchanged. -/
theorem c5_trace_6 :
    check_rate_limit
        ⟨[("c", [(0, "scan"), (2, "scan"), (4, "scan"), (6, "scan"), (8, "scan")])], 0⟩
        9 "c" "/scan/url"
      = (some "Too many requests. Please wait 10 seconds.",
         ⟨[("c", [(0, "scan"), (2, "scan"), (4, "scan"), (6, "scan"), (8, "scan")])], 0⟩) := by
  norm_num [check_rate_limit, _cleanup_old_entries, _get_endpoint_type, RATE_LIMITS,
    default_rate_config, updateClient, strContains, containsSeq, leadsWith, List.lookup,
    List.filter]
  rfl

/-- Step 7: a seventh request once the burst window has elapsed is admitted. -/
theorem c5_trace_7 :
    check_rate_limit
        ⟨[("c", [(0, "scan"), (2, "scan"), (4, "scan"), (6, "scan"), (8, "scan")])], 0⟩
        12 "c" "/scan/url"
      = (none,
         ⟨[("c", [(0, "scan"), (2, "scan"), (4, "scan"), (6, "scan"), (8, "scan"),
                  (12, "scan")])], 0⟩) := by
  norm_num [check_rate_limit, _cleanup_old_entries, _get_endpoint_type, RATE_LIMITS,
    default_rate_config, updateClient, strContains, containsSeq, leadsWith, List.lookup,
    List.filter]

/-- **C5 (amended).** Burst, per-minute and per-hour limits are checked in
that order, the first violation determining the reason; a rejection records
no new timestamp (though the lazy 5-minute sweep may still evict stale
entries, see the counterexample); and on the `scan` class
(`burst_limit = 5`, `burst_window = 10 s`) requests at
`t = 0, 2, 4, 6, 8` are admitted, the sixth at `t = 9` is rejected leaving
the state unchanged, and a seventh at `t = 12` is admitted. -/
theorem claim_C5_rate_limiter_behavior (st : RateLimiterState) (now : ℚ) (cid path : String) :
    (burstCountOf st now cid path ≥ (configOf path).burst_limit →
       check_rate_limit st now cid path
         = (some ("Too many requests. Please wait "
               ++ toString (configOf path).burst_window ++ " seconds."),
            ⟨updateClient (_cleanup_old_entries st now).requests cid (cleanedListOf st now cid),
             (_cleanup_old_entries st now).last_cleanup⟩))
    ∧ (burstCountOf st now cid path < (configOf path).burst_limit →
       minuteCountOf st now cid path ≥ (configOf path).requests_per_minute →
       check_rate_limit st now cid path
         = (some "Rate limit exceeded. Please wait a minute before trying again.",
            ⟨updateClient (_cleanup_old_entries st now).requests cid (cleanedListOf st now cid),
             (_cleanup_old_entries st now).last_cleanup⟩))
    ∧ (burstCountOf st now cid path < (configOf path).burst_limit →
       minuteCountOf st now cid path < (configOf path).requests_per_minute →
       (relevantOf st now cid path).length ≥ (configOf path).requests_per_hour →
       check_rate_limit st now cid path
         = (some "Hourly rate limit exceeded. Please try again later.",
            ⟨updateClient (_cleanup_old_entries st now).requests cid (cleanedListOf st now cid),
             (_cleanup_old_entries st now).last_cleanup⟩))
    ∧ (burstCountOf st now cid path < (configOf path).burst_limit →
       minuteCountOf st now cid path < (configOf path).requests_per_minute →
       (relevantOf st now cid path).length < (configOf path).requests_per_hour →
       check_rate_limit st now cid path
         = (none,
            ⟨updateClient (_cleanup_old_entries st now).requests cid
               (cleanedListOf st now cid ++ [(now, _get_endpoint_type path)]),
             (_cleanup_old_entries st now).last_cleanup⟩))
    ∧ (∀ msg st', check_rate_limit st now cid path = (some msg, st') →
        st'.requests
          = updateClient (_cleanup_old_entries st now).requests cid (cleanedListOf st now cid))
    ∧ (check_rate_limit ⟨[], 0⟩ 0 "c" "/scan/url"
         = (none, ⟨[("c", [(0, "scan")])], 0⟩))
    ∧ (check_rate_limit
          ⟨[("c", [(0, "scan"), (2, "scan"), (4, "scan"), (6, "scan"), (8, "scan")])], 0⟩
          9 "c" "/scan/url"
         = (some "Too many requests. Please wait 10 seconds.",
            ⟨[("c", [(0, "scan"), (2, "scan"), (4, "scan"), (6, "scan"), (8, "scan")])], 0⟩))
    ∧ (check_rate_limit
          ⟨[("c", [(0, "scan"), (2, "scan"), (4, "scan"), (6, "scan"), (8, "scan")])], 0⟩
          12 "c" "/scan/url"
         = (none,
            ⟨[("c", [(0, "scan"), (2, "scan"), (4, "scan"), (6, "scan"), (8, "scan"),
                     (12, "scan")])], 0⟩)) := by
  refine ⟨?_, ?_, ?_, ?_, ?_, c5_trace_1, c5_trace_6, c5_trace_7⟩
  · intro hb
    unfold burstCountOf relevantOf cleanedListOf configOf at hb
    simp only [check_rate_limit]
    rw [if_pos hb]
    rfl
  · intro hb hm
    unfold burstCountOf relevantOf cleanedListOf configOf at hb
    unfold minuteCountOf relevantOf cleanedListOf configOf at hm
    simp only [check_rate_limit]
    rw [if_neg (by omega), if_pos hm]
    rfl
  · intro hb hm hh
    unfold burstCountOf relevantOf cleanedListOf configOf at hb
    unfold minuteCountOf relevantOf cleanedListOf configOf at hm
    unfold relevantOf cleanedListOf configOf at hh
    simp only [check_rate_limit]
    rw [if_neg (by omega), if_neg (by omega), if_pos hh]
    rfl
  · intro hb hm hh
    unfold burstCountOf relevantOf cleanedListOf configOf at hb
    unfold minuteCountOf relevantOf cleanedListOf configOf at hm
    unfold relevantOf cleanedListOf configOf at hh
    simp only [check_rate_limit]
    rw [if_neg (by omega), if_neg (by omega), if_neg (by omega)]
    rfl
  · intro msg st' h
    simp only [check_rate_limit] at h
    unfold cleanedListOf
    split_ifs at h with h1 h2 h3
    · simp only [Prod.mk.injEq] at h
      rw [← h.2]
    · simp only [Prod.mk.injEq] at h
      rw [← h.2]
    · simp only [Prod.mk.injEq] at h
      rw [← h.2]
    · simp only [Prod.mk.injEq] at h
      exact absurd h.1 (by simp)

/-- Witness for the amended C5: the burst branch applied at the concrete
rejection state of the scenario. -/
theorem claim_C5_rate_limiter_behavior_witness :
    burstCountOf
        ⟨[("c", [(0, "scan"), (2, "scan"), (4, "scan"), (6, "scan"), (8, "scan")])], 0⟩
        9 "c" "/scan/url"
      ≥ (configOf "/scan/url").burst_limit
    ∧ check_rate_limit
        ⟨[("c", [(0, "scan"), (2, "scan"), (4, "scan"), (6, "scan"), (8, "scan")])], 0⟩
        9 "c" "/scan/url"
      = (some ("Too many requests. Please wait "
            ++ toString (configOf "/scan/url").burst_window ++ " seconds."),
         ⟨updateClient
            (_cleanup_old_entries
              ⟨[("c", [(0, "scan"), (2, "scan"), (4, "scan"), (6, "scan"), (8, "scan")])], 0⟩ 9).requests
            "c"
            (cleanedListOf
              ⟨[("c", [(0, "scan"), (2, "scan"), (4, "scan"), (6, "scan"), (8, "scan")])], 0⟩ 9 "c"),
          (_cleanup_old_entries
              ⟨[("c", [(0, "scan"), (2, "scan"), (4, "scan"), (6, "scan"), (8, "scan")])], 0⟩ 9).last_cleanup⟩) := by
  have hb : burstCountOf
      ⟨[("c", [(0, "scan"), (2, "scan"), (4, "scan"), (6, "scan"), (8, "scan")])], 0⟩
      9 "c" "/scan/url" ≥ (configOf "/scan/url").burst_limit := by
    norm_num [burstCountOf, relevantOf, cleanedListOf, configOf, _cleanup_old_entries,
      _get_endpoint_type, RATE_LIMITS, default_rate_config, strContains, containsSeq,
      leadsWith, List.lookup, List.filter]
  exact ⟨hb,
    (claim_C5_rate_limiter_behavior
      ⟨[("c", [(0, "scan"), (2, "scan"), (4, "scan"), (6, "scan"), (8, "scan")])], 0⟩
      9 "c" "/scan/url").1 hb⟩


namespace sanitizers

/-! ## `app/utils/sanitizers.py`: `redact_pii` (C6)

Each of the ten `(pattern, replacement)` pairs is applied in order with
`re.findall` (adding the number of matches to the running count) and
`re.sub` (replacing every non-overlapping match, leftmost-first, greedy
with backtracking), all under `re.IGNORECASE`.  Each regex is compiled
here into an explicit matcher `m prev l = some n` meaning "a match of
length `n` starts at `l`, whose previous character (for `\b`) is `prev`";
`subCountGo` is the shared scan-and-substitute engine (fuel-indexed so
that it reduces structurally).  ASCII inputs are assumed (`\w`, `\d`,
`\s` and case folding modelled on ASCII).
-/

/-- Python `\s` (ASCII). -/
def isSpaceChar (c : Char) : Bool :=
  c == ' ' || c == '\t' || c == '\n' || c == '\r' || c.toNat == 11 || c.toNat == 12

/-- Python `\w` (ASCII): letters, digits, underscore. -/
def wordChar (c : Char) : Bool := c.isAlpha || c.isDigit || c == '_'

/-- A `\b` before the current position: the previous character (none at the
start) is a non-word character; the current character is a word character
wherever the patterns use it. -/
def prevNonWord : Option Char → Bool
  | none => true
  | some c => !wordChar c

/-- The following character is a non-word character or the end (trailing `\b`
after a word character). -/
def nextNonWord : List Char → Bool
  | [] => true
  | c :: _ => !wordChar c

/-- Length of the longest prefix satisfying `p`. -/
def countWhile (p : Char → Bool) (l : List Char) : Nat := (l.takeWhile p).length

/-- The character class `[\d\s\-\(\)]` of the phone pattern. -/
def phoneClass (c : Char) : Bool :=
  c.isDigit || isSpaceChar c || c == '-' || c == '(' || c == ')'

/-- `\+?[\d\s\-\(\)]{10,15}`: an optional `+`, then greedily 10–15
class characters (an empty list matches nothing either way). -/
def phoneM (_ : Option Char) (l : List Char) : Option Nat :=
  match l with
  | [] => none
  | c :: rest =>
    if c = '+' then
      if 10 ≤ countWhile phoneClass rest then some (1 + min (countWhile phoneClass rest) 15)
      else none
    else
      if 10 ≤ countWhile phoneClass (c :: rest) then
        some (min (countWhile phoneClass (c :: rest)) 15)
      else none

/-- `[a-zA-Z0-9._%+-]`. -/
def emailLocalChar (c : Char) : Bool :=
  c.isAlpha || c.isDigit || c == '.' || c == '_' || c == '%' || c == '+' || c == '-'

/-- `[a-zA-Z0-9.-]`. -/
def emailDomChar (c : Char) : Bool := c.isAlpha || c.isDigit || c == '.' || c == '-'

/-- Domain backtracking step: a literal `.` at offset `d` of the domain run
followed by at least two letters. -/
def tryDot (rest : List Char) (d : Nat) : Option Nat :=
  match rest.drop d with
  | '.' :: tail =>
    if countWhile Char.isAlpha tail ≥ 2 then some (d + 1 + countWhile Char.isAlpha tail)
    else none
  | _ => none

/-- Backtracking of `[a-zA-Z0-9.-]+` from the greedy end: dot offsets
`d, d-1, …, 1`. -/
def searchDot (rest : List Char) : Nat → Option Nat
  | 0 => none
  | d + 1 =>
    match tryDot rest (d + 1) with
    | some r => some r
    | none => searchDot rest d

/-- `[a-zA-Z0-9._%+-]+@[a-zA-Z0-9.-]+\.[a-zA-Z]{2,}`. -/
def emailM (_ : Option Char) (l : List Char) : Option Nat :=
  let L := countWhile emailLocalChar l
  if L = 0 then none
  else
    match l.drop L with
    | '@' :: rest =>
      let D := countWhile emailDomChar rest
      if D = 0 then none
      else
        match searchDot rest (D - 1) with
        | some t => some (L + 1 + t)
        | none => none
    | _ => none

/-- Exactly four digits, returning the remainder. -/
def take4 (l : List Char) : Option (List Char) :=
  if (l.take 4).length = 4 && (l.take 4).all Char.isDigit then some (l.drop 4) else none

/-- `(?:\d{4}sep?){k}\d{4}\b`: `k` separated four-digit groups, each
optional separator tried greedily (with, then without), then the final
group followed by a word boundary. -/
def digitGroups (sep : Char → Bool) : Nat → List Char → Option Nat
  | 0, l =>
    match take4 l with
    | some rest => if nextNonWord rest then some 4 else none
    | none => none
  | k + 1, l =>
    match take4 l with
    | some rest =>
      match rest with
      | c :: rest2 =>
        if sep c then
          match digitGroups sep k rest2 with
          | some n => some (4 + 1 + n)
          | none =>
            match digitGroups sep k rest with
            | some n => some (4 + n)
            | none => none
        else
          match digitGroups sep k rest with
          | some n => some (4 + n)
          | none => none
      | [] =>
        match digitGroups sep k rest with
        | some n => some (4 + n)
        | none => none
    | none => none

/-- `\b(?:\d{4}[\s\-]?){3}\d{4}\b`. -/
def cardM (prev : Option Char) (l : List Char) : Option Nat :=
  if prevNonWord prev then digitGroups (fun c => isSpaceChar c || c == '-') 3 l else none

/-- `\b\d{4}\s?\d{4}\s?\d{4}\b`. -/
def aadhaarM (prev : Option Char) (l : List Char) : Option Nat :=
  if prevNonWord prev then digitGroups isSpaceChar 2 l else none

/-- Case-insensitive literal prefix. -/
def leadsWithCI (needle hay : List Char) : Bool :=
  leadsWith needle (hay.map Char.toLower)

/-- `[:\s]*\d{3,4}\b` (after `cvv`/`cvc`). -/
def cvvTail (rest : List Char) : Option Nat :=
  let k := countWhile (fun c => c == ':' || isSpaceChar c) rest
  let rest2 := rest.drop k
  let d := countWhile Char.isDigit rest2
  if (d = 3 || d = 4) && nextNonWord (rest2.drop d) then some (k + d) else none

/-- `(?:cvv|cvc)[:\s]*\d{3,4}\b`. -/
def cvvM (_ : Option Char) (l : List Char) : Option Nat :=
  if leadsWithCI "cvv".data l then
    match cvvTail (l.drop 3) with
    | some t => some (3 + t)
    | none =>
      if leadsWithCI "cvc".data l then
        match cvvTail (l.drop 3) with
        | some t => some (3 + t)
        | none => none
      else none
  else if leadsWithCI "cvc".data l then
    match cvvTail (l.drop 3) with
    | some t => some (3 + t)
    | none => none
  else none

/-- `\b[A-Z]{5}\d{4}[A-Z]\b` under `re.IGNORECASE`. -/
def panM (prev : Option Char) (l : List Char) : Option Nat :=
  if prevNonWord prev
      && (l.take 5).length = 5 && (l.take 5).all Char.isAlpha
      && ((l.drop 5).take 4).length = 4 && ((l.drop 5).take 4).all Char.isDigit then
    match l.drop 9 with
    | c :: rest => if c.isAlpha && nextNonWord rest then some 10 else none
    | [] => none
  else none

/-- `[:\s]*\d{4,8}\b` (after an OTP keyword). -/
def otpTail (rest : List Char) : Option Nat :=
  let k := countWhile (fun c => c == ':' || isSpaceChar c) rest
  let rest2 := rest.drop k
  let d := countWhile Char.isDigit rest2
  if 4 ≤ d && d ≤ 8 && nextNonWord (rest2.drop d) then some (k + d) else none

/-- Ordered alternation of literal keywords sharing a tail pattern. -/
def tryKws (tailF : List Char → Option Nat) : List (List Char) → List Char → Option Nat
  | [], _ => none
  | kw :: kws, l =>
    if leadsWithCI kw l then
      match tailF (l.drop kw.length) with
      | some t => some (kw.length + t)
      | none => tryKws tailF kws l
    else tryKws tailF kws l

/-- `(?:otp|code|pin|verify)[:\s]*\d{4,8}\b`. -/
def otpM (_ : Option Char) (l : List Char) : Option Nat :=
  tryKws otpTail ["otp".data, "code".data, "pin".data, "verify".data] l

/-- `[a-zA-Z0-9._-]`. -/
def upiChar (c : Char) : Bool := c.isAlpha || c.isDigit || c == '.' || c == '_' || c == '-'

/-- `[a-zA-Z0-9._-]+@[a-zA-Z]+`. -/
def upiM (_ : Option Char) (l : List Char) : Option Nat :=
  let L := countWhile upiChar l
  if L = 0 then none
  else
    match l.drop L with
    | '@' :: rest =>
      let g := countWhile Char.isAlpha rest
      if g ≥ 1 then some (L + 1 + g) else none
    | _ => none

/-- `[:\s#]*\d{9,18}\b` (after the account keyword). -/
def accTail (rest : List Char) : Option Nat :=
  let k := countWhile (fun c => c == ':' || isSpaceChar c || c == '#') rest
  let rest2 := rest.drop k
  let d := countWhile Char.isDigit rest2
  if 9 ≤ d && d ≤ 18 && nextNonWord (rest2.drop d) then some (k + d) else none

/-- `\b(?:a/?c|account)[:\s#]*\d{9,18}\b`: the first alternative `a/?c`
(with `/` greedily, then without), then `account`. -/
def accountM (prev : Option Char) (l : List Char) : Option Nat :=
  if prevNonWord prev then
    let lw := l.map Char.toLower
    let s1 :=
      if leadsWith "a/c".data lw then
        match accTail (l.drop 3) with
        | some t => some (3 + t)
        | none => none
      else none
    let s2 :=
      match s1 with
      | some r => some r
      | none =>
        if leadsWith "ac".data lw then
          match accTail (l.drop 2) with
          | some t => some (2 + t)
          | none => none
        else none
    match s2 with
    | some r => some r
    | none =>
      if leadsWith "account".data lw then
        match accTail (l.drop 7) with
        | some t => some (7 + t)
        | none => none
      else none
  else none

/-- `\b[A-Z]{4}0[A-Z0-9]{6}\b` under `re.IGNORECASE`. -/
def ifscM (prev : Option Char) (l : List Char) : Option Nat :=
  if prevNonWord prev
      && (l.take 4).length = 4 && (l.take 4).all Char.isAlpha then
    match l.drop 4 with
    | '0' :: rest =>
      if (rest.take 6).length = 6 && (rest.take 6).all (fun c => c.isAlpha || c.isDigit)
          && nextNonWord (rest.drop 6) then
        some 11
      else none
    | _ => none
  else none

/-- One pattern of the redaction list: matcher plus replacement token. -/
structure PatternDef where
  m : Option Char → List Char → Option Nat
  repl : List Char

/-- The scan of `re.sub`/`re.findall`: leftmost match, replace, continue
after it (the previous character for later `\b` tests is the last matched
character of the original string); on no match advance one character.
Structural on the fuel, which callers set above the input length. -/
def subCountGo (m : Option Char → List Char → Option Nat) (repl : List Char) :
    Nat → Option Char → List Char → List Char × Nat
  | _, _, [] => ([], 0)
  | 0, _, l => (l, 0)
  | fuel + 1, prev, x :: xs =>
    match m prev (x :: xs) with
    | some (n + 1) =>
      let r := subCountGo m repl fuel (some ((x :: xs).getD n x)) ((x :: xs).drop (n + 1))
      (repl ++ r.1, r.2 + 1)
    | _ =>
      let r := subCountGo m repl fuel (some x) xs
      (x :: r.1, r.2)

/-- `re.findall` count and `re.sub` result of one pattern in one pass. -/
def applyPattern (p : PatternDef) (l : List Char) : List Char × Nat :=
  subCountGo p.m p.repl (l.length + 1) none l

/-- The ten `(pattern, replacement)` pairs of `redact_pii`, in source order. -/
def pii_patterns : List PatternDef :=
  [⟨phoneM, "[PHONE_REDACTED]".data⟩,
   ⟨emailM, "[EMAIL_REDACTED]".data⟩,
   ⟨cardM, "[CARD_REDACTED]".data⟩,
   ⟨cvvM, "CVV: [REDACTED]".data⟩,
   ⟨aadhaarM, "[AADHAAR_REDACTED]".data⟩,
   ⟨panM, "[PAN_REDACTED]".data⟩,
   ⟨otpM, "OTP: [REDACTED]".data⟩,
   ⟨upiM, "[UPI_REDACTED]".data⟩,
   ⟨accountM, "Account: [REDACTED]".data⟩,
   ⟨ifscM, "[IFSC_REDACTED]".data⟩]

/-- One iteration of the `for pattern, replacement in patterns` loop:
substitute on the running text and add the match count. -/
def redactStep (acc : List Char × Nat) (p : PatternDef) : List Char × Nat :=
  ((applyPattern p acc.1).1, acc.2 + (applyPattern p acc.1).2)

/-- `redact_pii(text)`: the ten substitutions in order, with the total
match count. -/
def redact_pii (text : String) : String × Nat :=
  (String.mk (pii_patterns.foldl redactStep (text.data, 0)).1,
   (pii_patterns.foldl redactStep (text.data, 0)).2)

end sanitizers


open sanitizers

/-- **C6 (counterexample).** Two failures of the claim.
Input A `john@mail.com x@1.a/c:123456789` contains an email-pattern match
(`john@mail.com`), yet the redacted output
`[EMAIL_REDACTED] x@1.Account: [REDACTED]` again contains an email-pattern
match — the account substitution synthesizes `x@1.Account`, which the email
regex matches.  Input B, three Aadhaar numbers, contains three
Aadhaar-pattern matches but `redact_pii` returns count `2` (the phone
pattern consumes the text in two 15-character bites and no later pattern
sees the rest). -/
theorem claim_C6_counterexample :
    (applyPattern ⟨emailM, "[EMAIL_REDACTED]".data⟩
        "john@mail.com x@1.a/c:123456789".data).2 = 1
    ∧ redact_pii "john@mail.com x@1.a/c:123456789"
        = ("[EMAIL_REDACTED] x@1.Account: [REDACTED]", 2)
    ∧ "[EMAIL_REDACTED] x@1.Account: [REDACTED]".data
        = "[EMAIL_REDACTED] ".data ++ "x@1.Account".data ++ ": [REDACTED]".data
    ∧ emailM none "x@1.Account".data = some ("x@1.Account".data.length)
    ∧ (applyPattern ⟨aadhaarM, "[AADHAAR_REDACTED]".data⟩
        "123412341234 123412341234 123412341234".data).2 = 3
    ∧ redact_pii "123412341234 123412341234 123412341234"
        = ("[PHONE_REDACTED][PHONE_REDACTED]12341234", 2) := by
  refine ⟨by decide, by decide, by decide, by decide, by decide, by decide⟩

/-! ### No phone-class run of length 10 survives redaction -/

namespace sanitizers

/-- The length of the leading run of phone-class characters. -/
def frontRun (l : List Char) : Nat := countWhile phoneClass l

/-- No position in `l` starts a run of ten phone-class characters. -/
def noRun10 (l : List Char) : Prop := ∀ u, u <:+ l → frontRun u ≤ 9

theorem frontRun_cons (c : Char) (l : List Char) :
    frontRun (c :: l) = if phoneClass c then frontRun l + 1 else 0 := by
  simp only [frontRun, countWhile, List.takeWhile_cons]
  split_ifs with h <;> simp [h]

theorem noRun10_nil : noRun10 [] := by
  intro u hu
  rw [List.suffix_nil.mp hu]
  simp [frontRun, countWhile]

theorem noRun10_cons_iff (c : Char) (l : List Char) :
    noRun10 (c :: l) ↔ frontRun (c :: l) ≤ 9 ∧ noRun10 l := by
  constructor
  · intro h
    exact ⟨h _ (List.suffix_refl _), fun u hu => h u (hu.trans (List.suffix_cons c l))⟩
  · rintro ⟨h1, h2⟩ u hu
    rcases List.suffix_cons_iff.mp hu with h | h
    · rw [h]; exact h1
    · exact h2 u h

theorem frontRun_append_not {c : Char} (hc : phoneClass c = false)
    (u v : List Char) : frontRun (u ++ c :: v) = frontRun u := by
  induction u with
  | nil => simp [frontRun_cons, hc, frontRun, countWhile]
  | cons a u ih =>
    rw [List.cons_append, frontRun_cons, frontRun_cons, ih]

theorem noRun10_append_cons {u v : List Char} {c : Char}
    (hu : noRun10 u) (hc : phoneClass c = false) (hv : noRun10 v) :
    noRun10 (u ++ c :: v) := by
  induction u with
  | nil =>
    rw [List.nil_append, noRun10_cons_iff, frontRun_cons, hc]
    exact ⟨by simp, hv⟩
  | cons a u ih =>
    rw [List.cons_append, noRun10_cons_iff]
    refine ⟨?_, ih ((noRun10_cons_iff a u).mp hu).2⟩
    rw [show a :: (u ++ c :: v) = (a :: u) ++ c :: v from rfl, frontRun_append_not hc]
    exact hu _ (List.suffix_refl _)

theorem noRun10_of_append_single {r0 : List Char} {c0 : Char}
    (h : noRun10 (r0 ++ [c0])) (hc : phoneClass c0 = false) : noRun10 r0 := by
  intro u hu
  have h1 : u ++ [c0] <:+ r0 ++ [c0] := by
    obtain ⟨t, ht⟩ := hu
    exact ⟨t, by rw [← List.append_assoc, ht]⟩
  have h2 := h _ h1
  rwa [show u ++ [c0] = u ++ c0 :: [] from rfl, frontRun_append_not hc] at h2

/-- Boolean check of `noRun10` (for concrete tokens). -/
def noRun10B : List Char → Bool
  | [] => true
  | l@(_ :: t) => decide (frontRun l ≤ 9) && noRun10B t

theorem noRun10B_iff (l : List Char) : noRun10B l = true ↔ noRun10 l := by
  induction l with
  | nil => simp [noRun10B, noRun10_nil]
  | cons c t ih =>
    simp only [noRun10B, Bool.and_eq_true, decide_eq_true_eq, ih]
    rw [noRun10_cons_iff]

/-- What the substitution engine needs from a replacement token: it ends in
a non-phone-class character, is itself run-free, and starts with a
non-phone-class character. -/
def tokenOk (repl : List Char) : Prop :=
  (∃ r0 c0, repl = r0 ++ [c0] ∧ phoneClass c0 = false ∧ noRun10 r0)
  ∧ (∀ c, repl.head? = some c → phoneClass c = false)

/-- Boolean check of `tokenOk`. -/
def tokenOkB (repl : List Char) : Bool :=
  noRun10B repl
  && (match repl.head? with
      | some c => !phoneClass c
      | none => false)
  && (match repl.getLast? with
      | some c => !phoneClass c
      | none => false)

theorem tokenOk_of_B {repl : List Char} (h : tokenOkB repl = true) : tokenOk repl := by
  have hne : repl ≠ [] := by
    intro he
    rw [he] at h
    simp [tokenOkB] at h
  simp only [tokenOkB, Bool.and_eq_true] at h
  obtain ⟨⟨hrun, hhead⟩, hlast⟩ := h
  constructor
  · refine ⟨repl.dropLast, repl.getLast hne, (List.dropLast_append_getLast hne).symm, ?_, ?_⟩
    · rw [List.getLast?_eq_getLast repl hne] at hlast
      simpa using hlast
    · have hlast2 : phoneClass (repl.getLast hne) = false := by
        rw [List.getLast?_eq_getLast repl hne] at hlast
        simpa using hlast
      have hfull : noRun10 (repl.dropLast ++ [repl.getLast hne]) := by
        rw [List.dropLast_append_getLast hne]
        exact (noRun10B_iff repl).mp hrun
      exact noRun10_of_append_single hfull hlast2
  · intro c hc
    rw [hc] at hhead
    simpa using hhead

end sanitizers


namespace sanitizers

/-- The core invariant of the substitution engine: if the replacement token
is `tokenOk` and every scan position where the matcher fails (or would match
emptily) starts a run of at most 9 phone-class characters, then the output
has no run of 10, and its leading run is no longer than the input's. -/
theorem subCountGo_noRun10 {m : Option Char → List Char → Option Nat} {repl : List Char}
    (hrepl : tokenOk repl) :
    ∀ (fuel : Nat) (p : Option Char) (l : List Char), l.length < fuel →
      (∀ q u, u <:+ l → (m q u = none ∨ m q u = some 0) → frontRun u ≤ 9) →
      noRun10 (subCountGo m repl fuel p l).1
      ∧ frontRun (subCountGo m repl fuel p l).1 ≤ frontRun l := by
  intro fuel
  induction fuel with
  | zero =>
    intro p l hl H
    simp at hl
  | succ fuel ih =>
    intro p l hl H
    match l with
    | [] =>
      constructor
      · exact noRun10_nil
      · exact Nat.le_refl _
    | x :: xs =>
      have Hxs : ∀ q u, u <:+ xs → (m q u = none ∨ m q u = some 0) → frontRun u ≤ 9 :=
        fun q u hu => H q u (hu.trans (List.suffix_cons x xs))
      cases hm : m p (x :: xs) with
      | none =>
        have hself : frontRun (x :: xs) ≤ 9 := H p (x :: xs) (List.suffix_refl _) (Or.inl hm)
        obtain ⟨hn, hf⟩ := ih (some x) xs (by simp at hl; omega) Hxs
        simp only [subCountGo, hm]
        cases hx : phoneClass x with
        | false =>
          refine ⟨(noRun10_cons_iff _ _).mpr ⟨?_, hn⟩, ?_⟩
          · rw [frontRun_cons, hx]
            simp
          · rw [frontRun_cons, frontRun_cons, hx]
            simp
        | true =>
          rw [frontRun_cons, hx, if_pos rfl] at hself
          refine ⟨(noRun10_cons_iff _ _).mpr ⟨?_, hn⟩, ?_⟩
          · rw [frontRun_cons, hx, if_pos rfl]
            omega
          · rw [frontRun_cons, frontRun_cons, hx, if_pos rfl, if_pos rfl]
            omega
      | some n =>
        cases n with
        | zero =>
          have hself : frontRun (x :: xs) ≤ 9 := H p (x :: xs) (List.suffix_refl _) (Or.inr hm)
          obtain ⟨hn, hf⟩ := ih (some x) xs (by simp at hl; omega) Hxs
          simp only [subCountGo, hm]
          cases hx : phoneClass x with
          | false =>
            refine ⟨(noRun10_cons_iff _ _).mpr ⟨?_, hn⟩, ?_⟩
            · rw [frontRun_cons, hx]
              simp
            · rw [frontRun_cons, frontRun_cons, hx]
              simp
          | true =>
            rw [frontRun_cons, hx, if_pos rfl] at hself
            refine ⟨(noRun10_cons_iff _ _).mpr ⟨?_, hn⟩, ?_⟩
            · rw [frontRun_cons, hx, if_pos rfl]
              omega
            · rw [frontRun_cons, frontRun_cons, hx, if_pos rfl, if_pos rfl]
              omega
        | succ n =>
          have hdl : ((x :: xs).drop (n + 1)).length < fuel := by
            rw [List.length_drop]
            simp at hl ⊢
            omega
          have Hd : ∀ q u, u <:+ (x :: xs).drop (n + 1) →
              (m q u = none ∨ m q u = some 0) → frontRun u ≤ 9 :=
            fun q u hu => H q u (hu.trans (List.drop_suffix _ _))
          obtain ⟨hn1, _⟩ := ih (some ((x :: xs).getD n x)) ((x :: xs).drop (n + 1)) hdl Hd
          simp only [subCountGo, hm]
          obtain ⟨⟨r0, c0, hre, hc0, hr0⟩, hhead⟩ := hrepl
          have hne : repl ≠ [] := by
            rw [hre]
            simp
          obtain ⟨h0, t0, hrepl_eq⟩ := List.exists_cons_of_ne_nil hne
          constructor
          · rw [hre] at hn1 ⊢
            rw [List.append_assoc, List.singleton_append]
            exact noRun10_append_cons hr0 hc0 hn1
          · rw [hrepl_eq, List.cons_append, frontRun_cons,
              hhead h0 (by rw [hrepl_eq]; rfl)]
            simp
end sanitizers


namespace sanitizers

/-- Wherever the phone matcher fails (it never matches emptily), fewer than
ten phone-class characters follow. -/
theorem phoneM_none_bound (q : Option Char) (u : List Char)
    (h : phoneM q u = none ∨ phoneM q u = some 0) : frontRun u ≤ 9 := by
  cases u with
  | nil =>
    show countWhile phoneClass [] ≤ 9
    simp [countWhile]
  | cons c rest =>
    show countWhile phoneClass (c :: rest) ≤ 9
    simp only [phoneM] at h
    split_ifs at h with h1 h2 h3
    · subst h1
      simp [countWhile, List.takeWhile_cons, show phoneClass '+' = false from by decide]
    · subst h1
      simp [countWhile, List.takeWhile_cons, show phoneClass '+' = false from by decide]
    · rcases h with h | h
      · exact absurd h (by simp)
      · simp only [Option.some.injEq] at h
        omega
    · omega

/-- A pattern pass preserves run-freeness when its token is `tokenOk`. -/
theorem applyPattern_preserves {p : PatternDef} (hp : tokenOk p.repl)
    {l : List Char} (hl : noRun10 l) : noRun10 (applyPattern p l).1 :=
  (subCountGo_noRun10 hp (l.length + 1) none l (by omega)
    (fun _ u hu _ => hl u hu)).1

/-- The phone pass establishes run-freeness on any input. -/
theorem applyPattern_phone_clears (l : List Char) :
    noRun10 (applyPattern ⟨phoneM, "[PHONE_REDACTED]".data⟩ l).1 :=
  (subCountGo_noRun10 (tokenOk_of_B (by decide)) (l.length + 1) none l (by omega)
    (fun q u _ h => phoneM_none_bound q u h)).1

/-- Run-freeness survives the remaining passes of the fold. -/
theorem foldl_redactStep_noRun10 :
    ∀ (ps : List PatternDef) (acc : List Char × Nat),
      (∀ p ∈ ps, tokenOk p.repl) → noRun10 acc.1 →
      noRun10 (List.foldl redactStep acc ps).1 := by
  intro ps
  induction ps with
  | nil => intro acc _ h; exact h
  | cons p ps ih =>
    intro acc ht h
    rw [List.foldl_cons]
    exact ih _ (fun q hq => ht q (by simp [hq]))
      (applyPattern_preserves (ht p (by simp)) h)

/-- The fold only ever adds to the running count. -/
theorem foldl_redactStep_count_le :
    ∀ (ps : List PatternDef) (acc : List Char × Nat),
      acc.2 ≤ (List.foldl redactStep acc ps).2 := by
  intro ps
  induction ps with
  | nil => intro acc; exact Nat.le_refl _
  | cons p ps ih =>
    intro acc
    rw [List.foldl_cons]
    exact le_trans (Nat.le_add_right _ _) (ih (redactStep acc p))

set_option maxHeartbeats 1000000 in
/-- Every replacement token of the nine later patterns is `tokenOk`. -/
theorem pii_tail_tokens_ok :
    ∀ p ∈ [(⟨emailM, "[EMAIL_REDACTED]".data⟩ : PatternDef),
           ⟨cardM, "[CARD_REDACTED]".data⟩,
           ⟨cvvM, "CVV: [REDACTED]".data⟩,
           ⟨aadhaarM, "[AADHAAR_REDACTED]".data⟩,
           ⟨panM, "[PAN_REDACTED]".data⟩,
           ⟨otpM, "OTP: [REDACTED]".data⟩,
           ⟨upiM, "[UPI_REDACTED]".data⟩,
           ⟨accountM, "Account: [REDACTED]".data⟩,
           ⟨ifscM, "[IFSC_REDACTED]".data⟩], tokenOk p.repl := by
  intro p hp
  simp only [List.mem_cons, List.not_mem_nil, or_false] at hp
  rcases hp with rfl | rfl | rfl | rfl | rfl | rfl | rfl | rfl | rfl <;>
    exact tokenOk_of_B (by decide)

theorem string_data_mk (l : List Char) : (String.mk l).data = l := rfl

theorem redact_pii_fst (s : String) :
    (redact_pii s).1 = String.mk (pii_patterns.foldl redactStep (s.data, 0)).1 := rfl

theorem redact_pii_snd (s : String) :
    (redact_pii s).2 = (pii_patterns.foldl redactStep (s.data, 0)).2 := rfl

/-- The final redacted text has no run of ten phone-class characters. -/
theorem redact_pii_noRun10 (s : String) : noRun10 (redact_pii s).1.data := by
  rw [redact_pii_fst, string_data_mk]
  rw [show pii_patterns
      = (⟨phoneM, "[PHONE_REDACTED]".data⟩ : PatternDef)
        :: [(⟨emailM, "[EMAIL_REDACTED]".data⟩ : PatternDef),
            ⟨cardM, "[CARD_REDACTED]".data⟩,
            ⟨cvvM, "CVV: [REDACTED]".data⟩,
            ⟨aadhaarM, "[AADHAAR_REDACTED]".data⟩,
            ⟨panM, "[PAN_REDACTED]".data⟩,
            ⟨otpM, "OTP: [REDACTED]".data⟩,
            ⟨upiM, "[UPI_REDACTED]".data⟩,
            ⟨accountM, "Account: [REDACTED]".data⟩,
            ⟨ifscM, "[IFSC_REDACTED]".data⟩] from rfl,
    List.foldl_cons]
  exact foldl_redactStep_noRun10 _ _ pii_tail_tokens_ok
    (applyPattern_phone_clears s.data)

/-- A substring the phone regex `\+?[\d\s\-\(\)]{10,15}` matches in full. -/
def phoneMatchStr (w : List Char) : Prop :=
  (10 ≤ w.length ∧ w.length ≤ 15 ∧ ∀ c ∈ w, phoneClass c = true)
  ∨ (∃ k, w = '+' :: k ∧ 10 ≤ k.length ∧ k.length ≤ 15 ∧ ∀ c ∈ k, phoneClass c = true)

/-- A substring the Aadhaar regex `\d{4}\s?\d{4}\s?\d{4}` matches in full
(dropping the `\b` context conditions only strengthens absence). -/
def aadhaarShape (w : List Char) : Prop :=
  ∃ d1 s1 d2 s2 d3,
    w = d1 ++ s1 ++ d2 ++ s2 ++ d3
    ∧ d1.length = 4 ∧ (∀ c ∈ d1, c.isDigit = true)
    ∧ d2.length = 4 ∧ (∀ c ∈ d2, c.isDigit = true)
    ∧ d3.length = 4 ∧ (∀ c ∈ d3, c.isDigit = true)
    ∧ (s1 = [] ∨ ∃ c, s1 = [c] ∧ isSpaceChar c = true)
    ∧ (s2 = [] ∨ ∃ c, s2 = [c] ∧ isSpaceChar c = true)

theorem frontRun_ge_of_all_class {w : List Char}
    (h : ∀ c ∈ w, phoneClass c = true) (v : List Char) :
    w.length ≤ frontRun (w ++ v) := by
  induction w with
  | nil => simp
  | cons c t ih =>
    rw [List.cons_append, frontRun_cons, h c (by simp)]
    simp only [List.length_cons]
    split_ifs with hh
    · have := ih fun x hx => h x (by simp [hx])
      omega
    · simp at hh

theorem aadhaarShape_class_len {w : List Char} (hw : aadhaarShape w) :
    (∀ c ∈ w, phoneClass c = true) ∧ 12 ≤ w.length := by
  obtain ⟨d1, s1, d2, s2, d3, rfl, h1l, h1d, h2l, h2d, h3l, h3d, hs1, hs2⟩ := hw
  constructor
  · intro c hc
    simp only [List.mem_append] at hc
    have hdig : ∀ x : Char, x.isDigit = true → phoneClass x = true := by
      intro x hx
      simp [phoneClass, hx]
    have hsp : ∀ x : Char, isSpaceChar x = true → phoneClass x = true := by
      intro x hx
      simp [phoneClass, hx]
    rcases hc with ((((h | h) | h) | h) | h)
    · exact hdig c (h1d c h)
    · rcases hs1 with rfl | ⟨c', rfl, hc'⟩
      · cases h
      · simp only [List.mem_singleton] at h
        subst h
        exact hsp c hc'
    · exact hdig c (h2d c h)
    · rcases hs2 with rfl | ⟨c', rfl, hc'⟩
      · cases h
      · simp only [List.mem_singleton] at h
        subst h
        exact hsp c hc'
    · exact hdig c (h3d c h)
  · simp only [List.length_append]
    omega

end sanitizers


open sanitizers

/-- **C6 (amended).** What the redactor does guarantee: the redacted output
never contains any substring matching the phone pattern or the Aadhaar
pattern (their matches are runs of phone-class characters, and no run of ten
survives the phone pass and the later token substitutions), and the returned
count is at least the number of phone-pattern matches found in the input.
The analogous guarantees fail for the email class and for per-class counts —
see the counterexample. -/
theorem claim_C6_redactor_guarantees (s : String) :
    (∀ u w v, (redact_pii s).1.data = u ++ w ++ v → ¬ phoneMatchStr w)
    ∧ (∀ u w v, (redact_pii s).1.data = u ++ w ++ v → ¬ aadhaarShape w)
    ∧ (applyPattern ⟨phoneM, "[PHONE_REDACTED]".data⟩ s.data).2 ≤ (redact_pii s).2 := by
  have hrun := redact_pii_noRun10 s
  refine ⟨?_, ?_, ?_⟩
  · intro u w v he hw
    rcases hw with ⟨h10, _, hall⟩ | ⟨k, rfl, h10, _, hall⟩
    · have hs : w ++ v <:+ (redact_pii s).1.data :=
        ⟨u, by rw [← List.append_assoc, he]⟩
      have h1 := hrun (w ++ v) hs
      have h2 := frontRun_ge_of_all_class hall v
      omega
    · have hs : k ++ v <:+ (redact_pii s).1.data := by
        refine ⟨u ++ ['+'], ?_⟩
        rw [he]
        simp [List.append_assoc]
      have h1 := hrun (k ++ v) hs
      have h2 := frontRun_ge_of_all_class hall v
      omega
  · intro u w v he hw
    obtain ⟨hall, h12⟩ := aadhaarShape_class_len hw
    have hs : w ++ v <:+ (redact_pii s).1.data :=
      ⟨u, by rw [← List.append_assoc, he]⟩
    have h1 := hrun (w ++ v) hs
    have h2 := frontRun_ge_of_all_class hall v
    omega
  · rw [redact_pii_snd]
    rw [show pii_patterns
        = (⟨phoneM, "[PHONE_REDACTED]".data⟩ : PatternDef)
          :: [(⟨emailM, "[EMAIL_REDACTED]".data⟩ : PatternDef),
              ⟨cardM, "[CARD_REDACTED]".data⟩,
              ⟨cvvM, "CVV: [REDACTED]".data⟩,
              ⟨aadhaarM, "[AADHAAR_REDACTED]".data⟩,
              ⟨panM, "[PAN_REDACTED]".data⟩,
              ⟨otpM, "OTP: [REDACTED]".data⟩,
              ⟨upiM, "[UPI_REDACTED]".data⟩,
              ⟨accountM, "Account: [REDACTED]".data⟩,
              ⟨ifscM, "[IFSC_REDACTED]".data⟩] from rfl,
      List.foldl_cons]
    have h1 := foldl_redactStep_count_le
      [(⟨emailM, "[EMAIL_REDACTED]".data⟩ : PatternDef),
       ⟨cardM, "[CARD_REDACTED]".data⟩,
       ⟨cvvM, "CVV: [REDACTED]".data⟩,
       ⟨aadhaarM, "[AADHAAR_REDACTED]".data⟩,
       ⟨panM, "[PAN_REDACTED]".data⟩,
       ⟨otpM, "OTP: [REDACTED]".data⟩,
       ⟨upiM, "[UPI_REDACTED]".data⟩,
       ⟨accountM, "Account: [REDACTED]".data⟩,
       ⟨ifscM, "[IFSC_REDACTED]".data⟩]
      (redactStep (s.data, 0) ⟨phoneM, "[PHONE_REDACTED]".data⟩)
    have h2 : (redactStep (s.data, 0) (⟨phoneM, "[PHONE_REDACTED]".data⟩ : PatternDef)).2
        = 0 + (applyPattern ⟨phoneM, "[PHONE_REDACTED]".data⟩ s.data).2 := rfl
    omega

/-- Witness for the amended C6 at a concrete input with one phone match. -/
theorem claim_C6_redactor_guarantees_witness :
    (applyPattern ⟨phoneM, "[PHONE_REDACTED]".data⟩ "Call 9876543210 now".data).2
      ≤ (redact_pii "Call 9876543210 now").2 :=
  (claim_C6_redactor_guarantees "Call 9876543210 now").2.2

end ThreatScan
